import Mathlib

/-!
# Shallow embedding of the CHIP-8 interpreter core

This file embeds the interpreter state and operations of `src/chip8.cpp`
(`Chip8::initialize`, `Chip8::loadGame`, `Chip8::emulateCycle`) as Lean
definitions and proves properties of them.

Modelling conventions:
* machine integers are `Nat` with explicit truncation: every write to a
  general-purpose register or a memory byte goes through `setV` / `setMem`,
  which reduce modulo 256 (the arrays are `uint8` in the source); the program
  counter is reduced modulo 65536 at each write (`uint16`);
* arrays (`memory`, `V`, `stack`, `gfx`, `key`) are total functions
  `Nat -> Nat`; the source only ever indexes them inside their bounds
  (established by the guards embedded below);
* the C++ member `opcode` is omitted from the state: it is written once at the
  top of every cycle before being read, so it is a per-cycle scratch variable
  that never influences a later cycle;
* `rand()` (used only by opcode CXKK) is modelled by an extra argument `rnd`
  to the cycle function, the value the PRNG would return for this cycle;
* C++ exceptions become an error value paired with the machine state at the
  moment of the throw (the C++ object survives the throw, so partial
  mutations made before a throw would remain visible); the early `return` in
  the FX0A handler (which skips the timer update at the end of the function)
  becomes the distinguished result `CycleResult.waiting`.
-/

/-- The typed error taxonomy of the interpreter core, one constructor per
distinct failure family of `Chip8::emulateCycle`. -/
inductive MachineError where
  | memoryBounds
  | stackUnderflow
  | stackOverflow
  | addressOutOfRange
  | invalidOpcode
  | invalidRegisterState
  deriving DecidableEq, Repr

/-- Error for `Chip8::loadGame`: the ROM read yielded zero bytes. -/
inductive LoadError where
  | emptyRom
  deriving DecidableEq, Repr

/-- Interpreter state: the fields of class `Chip8` (member `opcode` omitted,
see the module comment). -/
structure Chip8 where
  memory : Nat → Nat
  V : Nat → Nat
  I : Nat
  pc : Nat
  gfx : Nat → Nat
  delay_timer : Nat
  sound_timer : Nat
  stack : Nat → Nat
  sp : Nat
  key : Nat → Nat
  drawFlag : Bool

/-- Modelled from the spec: `CHIP8_FONTSET` lives in `chip8.h`, which is not
part of the sources; the spec describes it as 16 fixed 5-byte glyph sprites,
one per hexadecimal digit (80 bytes total) — the canonical CHIP-8 font. -/
def CHIP8_FONTSET : List Nat :=
  [0xF0, 0x90, 0x90, 0x90, 0xF0,
   0x20, 0x60, 0x20, 0x20, 0x70,
   0xF0, 0x10, 0xF0, 0x80, 0xF0,
   0xF0, 0x10, 0xF0, 0x10, 0xF0,
   0x90, 0x90, 0xF0, 0x10, 0x10,
   0xF0, 0x80, 0xF0, 0x10, 0xF0,
   0xF0, 0x80, 0xF0, 0x90, 0xF0,
   0xF0, 0x10, 0x20, 0x40, 0x40,
   0xF0, 0x90, 0xF0, 0x90, 0xF0,
   0xF0, 0x90, 0xF0, 0x10, 0xF0,
   0xF0, 0x90, 0xF0, 0x90, 0x90,
   0xE0, 0x90, 0xE0, 0x90, 0xE0,
   0xF0, 0x80, 0x80, 0x80, 0xF0,
   0xE0, 0x90, 0x90, 0x90, 0xE0,
   0xF0, 0x80, 0xF0, 0x80, 0xF0,
   0xF0, 0x80, 0xF0, 0x80, 0x80]

/-- `Chip8::initialize`: pc = 0x200, everything cleared, fontset installed in
bytes 0x000–0x04F, timers zero, draw flag clear. -/
def initChip8 : Chip8 where
  memory := fun a => if a < 80 then CHIP8_FONTSET.getD a 0 else 0
  V := fun _ => 0
  I := 0
  pc := 0x200
  gfx := fun _ => 0
  delay_timer := 0
  sound_timer := 0
  stack := fun _ => 0
  sp := 0
  key := fun _ => 0
  drawFlag := false

/-- Pointwise update of an array modelled as a function. -/
def updFn (f : Nat → Nat) (i v : Nat) : Nat → Nat :=
  fun j => if j = i then v else f j

/-- Write a general-purpose register: `uint8` store, truncates modulo 256. -/
def setV (V : Nat → Nat) (i v : Nat) : Nat → Nat :=
  updFn V i (v % 256)

/-- Write a memory byte: `uint8` store, truncates modulo 256. -/
def setMem (mem : Nat → Nat) (a v : Nat) : Nat → Nat :=
  updFn mem a (v % 256)

/-- `Chip8::loadGame`, with the ROM file contents given as the byte list
`bytes`: `fread(&memory[0x200], 1, 4096 - 0x200, file)` copies the first
`min bytes.length 3584` bytes to addresses 0x200.., then the call fails iff
that count is zero.  (A file longer than 3584 bytes is silently truncated by
`fread`; it is not an error in the source.) -/
def loadGame (bytes : List Nat) (s : Chip8) : Chip8 × Option LoadError :=
  let bytesRead := min bytes.length 3584
  let s1 := { s with
    memory := fun a =>
      if 0x200 ≤ a ∧ a < 0x200 + bytesRead then (bytes.getD (a - 0x200) 0) % 256
      else s.memory a }
  if bytesRead = 0 then (s1, some LoadError.emptyRom) else (s1, none)

/-- Opcode fetch: big-endian compose of the two bytes at `pc` (the bounds
check `pc + 1 >= 4096` lives in `execInstr`, before this is used). -/
def fetchWord (s : Chip8) : Nat :=
  (s.memory s.pc) <<< 8 ||| s.memory (s.pc + 1)

/-- Field `x`: bits 8–11 of the opcode. -/
def opX (op : Nat) : Nat := (op &&& 0x0F00) >>> 8

/-- Field `y`: bits 4–7 of the opcode. -/
def opY (op : Nat) : Nat := (op &&& 0x00F0) >>> 4

/-- Field `kk`: low byte of the opcode. -/
def opKK (op : Nat) : Nat := op &&& 0x00FF

/-- Field `nnn`: low 12 bits of the opcode. -/
def opNNN (op : Nat) : Nat := op &&& 0x0FFF

/-- Field `n`: low nibble of the opcode. -/
def opN (op : Nat) : Nat := op &&& 0x000F

/-- The FX0A key scan: indices 0–15 in ascending order, first pressed key
(the loop with `break` in the source). -/
def scanKey (key : Nat → Nat) : Option Nat :=
  (List.range 16).find? (fun i => key i != 0)

/-- One drawn sprite pixel at linear index `idx`: collision test against the
current cell, then XOR-toggle (`if (gfx[i]==1) VF=1; gfx[i] ^= 1;`). -/
def drawStep (st : (Nat → Nat) × Nat) (idx : Nat) : (Nat → Nat) × Nat :=
  (updFn st.1 idx (st.1 idx ^^^ 1), if st.1 idx = 1 then 1 else st.2)

/-- Apply `drawStep` along a list of target indices. -/
def drawList (st : (Nat → Nat) × Nat) (l : List Nat) : (Nat → Nat) × Nat :=
  l.foldl drawStep st

/-- Inner loop of DXYN (one sprite row): for `xline = 0..7`, the target cell
is `xpos + xline + ybase` where `ybase = (ypos + yline) * 64`; a cell with
linear index ≥ 2048 is skipped (`continue`), and only set sprite bits
(MSB first) are drawn. -/
def drawRow (pixel xpos ybase : Nat) (st : (Nat → Nat) × Nat) : (Nat → Nat) × Nat :=
  (List.range 8).foldl (fun st2 xl =>
    if xpos + xl + ybase < 2048 ∧ pixel &&& (0x80 >>> xl) ≠ 0 then
      drawStep st2 (xpos + xl + ybase)
    else st2) st

/-- Outer loop of DXYN: rows `yline = 0..height-1`, sprite byte
`memory[I + yline]`; the collision flag starts at 0. -/
def drawSprite (mem g : Nat → Nat) (xpos ypos I h : Nat) : (Nat → Nat) × Nat :=
  (List.range h).foldl (fun st yl => drawRow (mem (I + yl)) xpos ((ypos + yl) * 64) st) (g, 0)

/-- The target indices of one sprite row, in drawing order (the indices at
which `drawRow` toggles a cell). -/
def rowIndices (pixel xpos ybase : Nat) : List Nat :=
  (List.range 8).filterMap (fun xl =>
    if xpos + xl + ybase < 2048 ∧ pixel &&& (0x80 >>> xl) ≠ 0 then
      some (xpos + xl + ybase)
    else none)

/-- All target indices of a DXYN draw, in drawing order. -/
def spriteIndices (mem : Nat → Nat) (I xpos ypos h : Nat) : List Nat :=
  (List.range h).flatMap (fun yl => rowIndices (mem (I + yl)) xpos ((ypos + yl) * 64))

/-- Result of the decode/execute switch of `Chip8::emulateCycle`:
`ok` falls through to the timer update at the end of the function,
`waiting` is the early `return` of a blocked FX0A (timers not updated),
`err` is a throw, carrying the state at the moment of the throw. -/
inductive CycleResult where
  | ok (s : Chip8)
  | waiting (s : Chip8)
  | err (s : Chip8) (e : MachineError)

/-- Constructor discriminator for `CycleResult`. -/
def CycleResult.isOk : CycleResult → Bool
  | .ok _ => true
  | _ => false

/-- The 0-family sub-switch (`switch (opcode & 0x000F)` in the source: the
dispatch looks at the low nibble only). -/
def execOp0 (s : Chip8) (op : Nat) : CycleResult :=
  match opN op with
  | 0x0 => -- 00E0 CLS
    CycleResult.ok { s with gfx := fun _ => 0, pc := (s.pc + 2) % 65536 }
  | 0xE => -- 00EE RET
    if s.sp = 0 then CycleResult.err s MachineError.stackUnderflow
    else CycleResult.ok { s with sp := s.sp - 1, pc := (s.stack (s.sp - 1) + 2) % 65536 }
  | _ => CycleResult.err s MachineError.invalidOpcode

/-- The 8-family ALU sub-switch (`switch (opcode & 0x000F)`).  In the source
each handler writes `V[0xF]` first and then updates `V[x]` reading the
already-updated register file, which matters when `x` or `y` is 0xF. -/
def execOp8 (s : Chip8) (op : Nat) : CycleResult :=
  match opN op with
  | 0x0 => -- 8XY0 LD
    CycleResult.ok { s with V := setV s.V (opX op) (s.V (opY op)), pc := (s.pc + 2) % 65536 }
  | 0x1 => -- 8XY1 OR
    CycleResult.ok { s with V := setV s.V (opX op) (s.V (opX op) ||| s.V (opY op)),
                            pc := (s.pc + 2) % 65536 }
  | 0x2 => -- 8XY2 AND
    CycleResult.ok { s with V := setV s.V (opX op) (s.V (opX op) &&& s.V (opY op)),
                            pc := (s.pc + 2) % 65536 }
  | 0x3 => -- 8XY3 XOR
    CycleResult.ok { s with V := setV s.V (opX op) (s.V (opX op) ^^^ s.V (opY op)),
                            pc := (s.pc + 2) % 65536 }
  | 0x4 => -- 8XY4 ADD: VF is written first, then Vx += Vy
    CycleResult.ok { s with
      V := (fun V1 => setV V1 (opX op) (V1 (opX op) + V1 (opY op)))
             (setV s.V 15 (if 0xFF - s.V (opX op) < s.V (opY op) then 1 else 0)),
      pc := (s.pc + 2) % 65536 }
  | 0x5 => -- 8XY5 SUB: VF first, then Vx -= Vy (uint8 wrap)
    CycleResult.ok { s with
      V := (fun V1 => setV V1 (opX op) (V1 (opX op) + 256 - V1 (opY op)))
             (setV s.V 15 (if s.V (opY op) ≤ s.V (opX op) then 1 else 0)),
      pc := (s.pc + 2) % 65536 }
  | 0x6 => -- 8XY6 SHR: VF := old bit 0, then Vx >>= 1
    CycleResult.ok { s with
      V := (fun V1 => setV V1 (opX op) (V1 (opX op) >>> 1))
             (setV s.V 15 (if s.V (opX op) &&& 0x1 ≠ 0 then 1 else 0)),
      pc := (s.pc + 2) % 65536 }
  | 0x7 => -- 8XY7 SUBN: VF first, then Vx = Vy - Vx (uint8 wrap)
    CycleResult.ok { s with
      V := (fun V1 => setV V1 (opX op) (V1 (opY op) + 256 - V1 (opX op)))
             (setV s.V 15 (if s.V (opX op) ≤ s.V (opY op) then 1 else 0)),
      pc := (s.pc + 2) % 65536 }
  | 0xE => -- 8XYE SHL: VF := old bit 7, then Vx <<= 1
    CycleResult.ok { s with
      V := (fun V1 => setV V1 (opX op) (V1 (opX op) <<< 1))
             (setV s.V 15 (if (s.V (opX op) &&& 0x80) >>> 7 ≠ 0 then 1 else 0)),
      pc := (s.pc + 2) % 65536 }
  | _ => CycleResult.err s MachineError.invalidOpcode

/-- The 0xE-family sub-switch (`switch (opcode & 0x00FF)`).  An unknown
sub-opcode is only logged by the source (`printf`) and the cycle completes
with `pc` unchanged. -/
def execOpE (s : Chip8) (op : Nat) : CycleResult :=
  match opKK op with
  | 0x9E => -- EX9E SKP
    CycleResult.ok
      { s with pc := (s.pc + (if s.key (s.V (opX op)) ≠ 0 then 4 else 2)) % 65536 }
  | 0xA1 => -- EXA1 SKNP
    CycleResult.ok
      { s with pc := (s.pc + (if s.key (s.V (opX op)) = 0 then 4 else 2)) % 65536 }
  | _ => CycleResult.ok s

/-- The 0xF-family sub-switch (`switch (opcode & 0x00FF)`).  An unknown
sub-opcode is only logged by the source (`printf`) and the cycle completes
with `pc` unchanged. -/
def execOpF (s : Chip8) (op : Nat) : CycleResult :=
  match opKK op with
  | 0x07 => -- FX07 LD Vx, DT
    CycleResult.ok { s with V := setV s.V (opX op) s.delay_timer, pc := (s.pc + 2) % 65536 }
  | 0x0A => -- FX0A LD Vx, K (blocking key wait)
    (match scanKey s.key with
     | some i => CycleResult.ok { s with V := setV s.V (opX op) i, pc := (s.pc + 2) % 65536 }
     | none => CycleResult.waiting s)
  | 0x15 => -- FX15 LD DT, Vx
    CycleResult.ok { s with delay_timer := s.V (opX op), pc := (s.pc + 2) % 65536 }
  | 0x18 => -- FX18 LD ST, Vx
    CycleResult.ok { s with sound_timer := s.V (opX op), pc := (s.pc + 2) % 65536 }
  | 0x1E => -- FX1E ADD I, Vx
    if s.I + s.V (opX op) ≥ 4096 then CycleResult.err s MachineError.addressOutOfRange
    else CycleResult.ok { s with I := s.I + s.V (opX op), pc := (s.pc + 2) % 65536 }
  | 0x29 => -- FX29 LD F, Vx (SPRITE_LENGTH = 5)
    if s.V (opX op) > 0xF then CycleResult.err s MachineError.invalidRegisterState
    else CycleResult.ok { s with I := s.V (opX op) * 5, pc := (s.pc + 2) % 65536 }
  | 0x33 => -- FX33 BCD
    if s.I + 2 ≥ 4096 then CycleResult.err s MachineError.memoryBounds
    else CycleResult.ok { s with
      memory := setMem (setMem (setMem s.memory s.I (s.V (opX op) / 100))
                  (s.I + 1) (s.V (opX op) / 10 % 10))
                  (s.I + 2) (s.V (opX op) % 10),
      pc := (s.pc + 2) % 65536 }
  | 0x55 => -- FX55 LD [I], Vx
    if s.I + opX op ≥ 4096 then CycleResult.err s MachineError.memoryBounds
    else CycleResult.ok { s with
      memory := (List.range (opX op + 1)).foldl (fun m i => setMem m (s.I + i) (s.V i))
                  s.memory,
      pc := (s.pc + 2) % 65536 }
  | 0x65 => -- FX65 LD Vx, [I]
    if s.I + opX op ≥ 4096 then CycleResult.err s MachineError.memoryBounds
    else CycleResult.ok { s with
      V := (List.range (opX op + 1)).foldl (fun Vf i => setV Vf i (s.memory (s.I + i))) s.V,
      pc := (s.pc + 2) % 65536 }
  | _ => CycleResult.ok s

/-- The decode/execute switch of `Chip8::emulateCycle` on the fetched opcode
`op` (`switch (opcode & 0xF000)` in source order, with the nested
sub-switches factored into `execOp0` / `execOp8` / `execOpE` / `execOpF`).
An unknown family only logs (`printf`) and falls through to the timer
update (unreachable: `op &&& 0xF000` always matches one of the 16 cases). -/
def execOp (rnd : Nat) (s : Chip8) (op : Nat) : CycleResult :=
  match op &&& 0xF000 with
  | 0x0000 => execOp0 s op
  | 0x1000 => -- 1NNN JP
    if opNNN op ≥ 4096 then CycleResult.err s MachineError.addressOutOfRange
    else CycleResult.ok { s with pc := opNNN op }
  | 0x2000 => -- 2NNN CALL
    if s.sp ≥ 16 then CycleResult.err s MachineError.stackOverflow
    else
      -- the source pushes first and checks nnn afterwards
      if opNNN op ≥ 4096 then
        CycleResult.err { s with stack := updFn s.stack s.sp s.pc, sp := s.sp + 1 }
          MachineError.addressOutOfRange
      else
        CycleResult.ok { s with stack := updFn s.stack s.sp s.pc, sp := s.sp + 1,
                                pc := opNNN op }
  | 0x3000 => -- 3XKK SE
    CycleResult.ok { s with pc := (s.pc + (if s.V (opX op) = opKK op then 4 else 2)) % 65536 }
  | 0x4000 => -- 4XKK SNE
    CycleResult.ok { s with pc := (s.pc + (if s.V (opX op) ≠ opKK op then 4 else 2)) % 65536 }
  | 0x5000 => -- 5XY0 SE Vx,Vy
    if opN op ≠ 0 then CycleResult.err s MachineError.invalidOpcode
    else CycleResult.ok
      { s with pc := (s.pc + (if s.V (opX op) = s.V (opY op) then 4 else 2)) % 65536 }
  | 0x6000 => -- 6XKK LD
    CycleResult.ok { s with V := setV s.V (opX op) (opKK op), pc := (s.pc + 2) % 65536 }
  | 0x7000 => -- 7XKK ADD (wrapping, no flag)
    CycleResult.ok { s with V := setV s.V (opX op) (s.V (opX op) + opKK op),
                            pc := (s.pc + 2) % 65536 }
  | 0x8000 => execOp8 s op
  | 0x9000 => -- 9XY0 SNE Vx,Vy
    if opN op ≠ 0 then CycleResult.err s MachineError.invalidOpcode
    else CycleResult.ok
      { s with pc := (s.pc + (if s.V (opX op) ≠ s.V (opY op) then 4 else 2)) % 65536 }
  | 0xA000 => -- ANNN LD I
    CycleResult.ok { s with I := opNNN op, pc := (s.pc + 2) % 65536 }
  | 0xB000 => -- BNNN JP V0 (no bounds check in the source)
    CycleResult.ok { s with pc := (opNNN op + s.V 0) % 65536 }
  | 0xC000 => -- CXKK RND
    CycleResult.ok { s with V := setV s.V (opX op) ((rnd % 256) &&& opKK op),
                            pc := (s.pc + 2) % 65536 }
  | 0xD000 => -- DXYN DRW
    if s.I + opN op > 4096 then CycleResult.err s MachineError.memoryBounds
    else
      -- VF is reset to 0 and then possibly set to 1 inside the loops; the
      -- net register-file effect is a single write of the collision bit
      CycleResult.ok { s with
        gfx := (drawSprite s.memory s.gfx (s.V (opX op)) (s.V (opY op)) s.I (opN op)).1,
        V := setV s.V 15 (drawSprite s.memory s.gfx (s.V (opX op)) (s.V (opY op)) s.I (opN op)).2,
        drawFlag := true, pc := (s.pc + 2) % 65536 }
  | 0xE000 => execOpE s op
  | 0xF000 => execOpF s op
  | _ => CycleResult.ok s

/-- Fetch (with its bounds check, performed before reading memory) followed by
the decode/execute switch. -/
def execInstr (rnd : Nat) (s : Chip8) : CycleResult :=
  if s.pc + 1 ≥ 4096 then CycleResult.err s MachineError.memoryBounds
  else execOp rnd s (fetchWord s)

/-- The timer update at the end of `Chip8::emulateCycle`:
`if (t > 0) --t;` for both timers. -/
def tickTimers (s : Chip8) : Chip8 :=
  { s with delay_timer := if 0 < s.delay_timer then s.delay_timer - 1 else s.delay_timer,
           sound_timer := if 0 < s.sound_timer then s.sound_timer - 1 else s.sound_timer }

/-- `Chip8::emulateCycle` with the PRNG value `rnd` for this cycle: the
switch, then — only when the switch falls through normally — the timer
update.  The returned state is the machine state after the call (also when
an exception was thrown). -/
def emulateCycle (rnd : Nat) (s : Chip8) : Chip8 × Option MachineError :=
  match execInstr rnd s with
  | CycleResult.ok s1 => (tickTimers s1, none)
  | CycleResult.waiting s1 => (s1, none)
  | CycleResult.err s1 e => (s1, some e)

/-- Opcodes rejected with a thrown error by the switch: 0-family with low
nibble other than 0x0/0xE, and 0x5/0x8/0x9 families with an unlisted low
nibble. -/
def isStrictUnknown (op : Nat) : Bool :=
  (op &&& 0xF000 == 0x0000 && opN op != 0x0 && opN op != 0xE) ||
  (op &&& 0xF000 == 0x5000 && opN op != 0x0) ||
  (op &&& 0xF000 == 0x8000 && opN op != 0x0 && opN op != 0x1 && opN op != 0x2 &&
    opN op != 0x3 && opN op != 0x4 && opN op != 0x5 && opN op != 0x6 && opN op != 0x7 &&
    opN op != 0xE) ||
  (op &&& 0xF000 == 0x9000 && opN op != 0x0)

/-- Opcodes whose unknown sub-opcode is only logged by the source (`printf`),
after which the cycle completes normally: 0xE and 0xF families with an
unlisted low byte. -/
def isLoggedUnknown (op : Nat) : Bool :=
  (op &&& 0xF000 == 0xE000 && opKK op != 0x9E && opKK op != 0xA1) ||
  (op &&& 0xF000 == 0xF000 && opKK op != 0x07 && opKK op != 0x0A && opKK op != 0x15 &&
    opKK op != 0x18 && opKK op != 0x1E && opKK op != 0x29 && opKK op != 0x33 &&
    opKK op != 0x55 && opKK op != 0x65)

/-- The opcode is FX15 (the only instruction writing the delay timer). -/
@[reducible] def isFX15 (op : Nat) : Prop := op &&& 0xF000 = 0xF000 ∧ opKK op = 0x15

/-- The opcode is FX18 (the only instruction writing the sound timer). -/
@[reducible] def isFX18 (op : Nat) : Prop := op &&& 0xF000 = 0xF000 ∧ opKK op = 0x18

/-- States reachable from `initialize()` by a successful `loadGame` followed
by successful `emulateCycle` calls (any PRNG values). -/
inductive Reachable : Chip8 → Prop where
  | load (bytes : List Nat) (h : (loadGame bytes initChip8).2 = none) :
      Reachable (loadGame bytes initChip8).1
  | step (rnd : Nat) (s : Chip8) (hs : Reachable s) (h : (emulateCycle rnd s).2 = none) :
      Reachable (emulateCycle rnd s).1

/-- The PC / stack / register-file bounds that successful cycles actually
maintain. -/
def MachineInv (s : Chip8) : Prop :=
  s.pc ≤ 4350 ∧ (∀ i, s.stack i ≤ 4094) ∧ (∀ i, s.V i < 256)

/-! ## Concrete machine states used to instantiate the theorems -/

/-- Freshly initialized machine loaded with opcode 0xE0FF (an unrecognized
0xE-family sub-opcode), delay timer 5. -/
def sC1cx : Chip8 := { (loadGame [0xE0, 0xFF] initChip8).1 with delay_timer := 5 }

/-- Freshly initialized machine loaded with opcode 0x5001 (a 0x5-family
sub-opcode with nonzero low nibble). -/
def sC1w : Chip8 := (loadGame [0x50, 0x01] initChip8).1

/-- Machine whose program counter sits at the last memory byte, so the
two-byte fetch is out of bounds. -/
def sC2w : Chip8 := { initChip8 with pc := 4095 }

/-- Machine about to execute 0x00EE (RET) with an empty stack. -/
def sC2underflow : Chip8 := (loadGame [0x00, 0xEE] initChip8).1

/-- Machine about to execute 0x2200 (CALL 0x200) with a full stack (sp = 16). -/
def sC2overflow : Chip8 := { (loadGame [0x22, 0x00] initChip8).1 with sp := 16 }

/-- Machine about to execute FX1E with I = 4095 and V0 = 100, so I + V0
overflows the address space. -/
def sC2addr : Chip8 :=
  { (loadGame [0xF0, 0x1E] initChip8).1 with
    I := 4095,
    V := fun i => if i = 0 then 100 else 0 }

/-- Machine about to execute 0x8008 (an unlisted 8-family sub-opcode). -/
def sC2invalid : Chip8 := (loadGame [0x80, 0x08] initChip8).1

/-- Machine about to execute FX29 with V0 = 16 > 0xF. -/
def sC2reg : Chip8 :=
  { (loadGame [0xF0, 0x29] initChip8).1 with V := fun i => if i = 0 then 16 else 0 }

/-- Machine about to execute FX0A with no key pressed and delay timer 5. -/
def sC3cx : Chip8 := { (loadGame [0xF0, 0x0A] initChip8).1 with delay_timer := 5 }

/-- Machine about to execute 00E0 (CLS) with delay timer 3. -/
def sC3w : Chip8 := { (loadGame [0x00, 0xE0] initChip8).1 with delay_timer := 3 }

/-- Machine about to execute FX0A (x = 3) with exactly key 5 pressed. -/
def sC4w : Chip8 :=
  { (loadGame [0xF3, 0x0A] initChip8).1 with key := fun j => if j = 5 then 1 else 0 }

/-- Machine about to execute 0x1101 (JP 0x101: an odd target below 0x200). -/
def sC5cx : Chip8 := (loadGame [0x11, 0x01] initChip8).1

/-- Machine about to execute FX33 with I = 0 (BCD store into the font area). -/
def sC6cx : Chip8 := (loadGame [0xF0, 0x33] initChip8).1

/-- Machine about to execute FX33 with I = 0x300. -/
def sC6w : Chip8 := { (loadGame [0xF0, 0x33] initChip8).1 with I := 0x300 }

/-- Machine about to execute 0x80F4 (8XY4 with y = 0xF), V0 = 10, VF = 20. -/
def sC9cx : Chip8 :=
  { (loadGame [0x80, 0xF4] initChip8).1 with
    V := fun i => if i = 0 then 10 else if i = 15 then 20 else 0 }

/-- Machine about to execute 0x8014 (ADD V0, V1), V0 = 200, V1 = 100. -/
def sC9w : Chip8 :=
  { (loadGame [0x80, 0x14] initChip8).1 with
    V := fun i => if i = 0 then 200 else if i = 1 then 100 else 0 }

/-- Memory holding the single-byte sprite 0xFF at address 0. -/
def memSpriteFF : Nat → Nat := fun a => if a = 0 then 0xFF else 0

/-- Memory holding the single-byte sprite 0x80 at address 0. -/
def memSprite80 : Nat → Nat := fun a => if a = 0 then 0x80 else 0

/-- All-clear framebuffer. -/
def gfxZero : Nat → Nat := fun _ => 0

/-- Framebuffer with exactly cell 0 set. -/
def gfxOne : Nat → Nat := fun j => if j = 0 then 1 else 0

/-! ## Basic bounds on opcode fields and register writes -/

lemma opNNN_lt (op : Nat) : opNNN op < 4096 := by
  unfold opNNN
  have h : op &&& 0x0FFF ≤ 0x0FFF := Nat.and_le_right
  omega

lemma opN_lt (op : Nat) : opN op < 16 := by
  unfold opN
  have h : op &&& 0x000F ≤ 0x000F := Nat.and_le_right
  omega

lemma opKK_lt (op : Nat) : opKK op < 256 := by
  unfold opKK
  have h : op &&& 0x00FF ≤ 0x00FF := Nat.and_le_right
  omega

lemma opX_lt (op : Nat) : opX op < 16 := by
  unfold opX
  have h1 : op &&& 0x0F00 ≤ 0x0F00 := Nat.and_le_right
  have h2 : (op &&& 0x0F00) >>> 8 = (op &&& 0x0F00) / 256 := by
    rw [Nat.shiftRight_eq_div_pow]
  have h3 : (op &&& 0x0F00) / 256 ≤ 0x0F00 / 256 := Nat.div_le_div_right h1
  omega

lemma setV_lt (V : Nat → Nat) (i v : Nat) (hV : ∀ k, V k < 256) :
    ∀ j, setV V i v j < 256 := by
  intro j
  unfold setV updFn
  split
  · exact Nat.mod_lt _ (by norm_num)
  · exact hV j

/-! ## The switch never mutates state before a throw -/

lemma execOp0_err_eq (s : Chip8) (op : Nat) (t : Chip8) (e : MachineError)
    (h : execOp0 s op = CycleResult.err t e) : t = s := by
  unfold execOp0 at h
  split at h <;> first | (cases h <;> rfl) | omega | (split at h <;> first | (cases h <;> rfl) | omega | (split at h <;> first | (cases h <;> rfl) | omega | (split at h <;> first | (cases h <;> rfl) | omega | cases h) | cases h) | cases h) | cases h

lemma execOp8_err_eq (s : Chip8) (op : Nat) (t : Chip8) (e : MachineError)
    (h : execOp8 s op = CycleResult.err t e) : t = s := by
  unfold execOp8 at h
  split at h <;> first | (cases h <;> rfl) | omega | (split at h <;> first | (cases h <;> rfl) | omega | (split at h <;> first | (cases h <;> rfl) | omega | (split at h <;> first | (cases h <;> rfl) | omega | cases h) | cases h) | cases h) | cases h

lemma execOpE_err_eq (s : Chip8) (op : Nat) (t : Chip8) (e : MachineError)
    (h : execOpE s op = CycleResult.err t e) : t = s := by
  unfold execOpE at h
  split at h <;> first | (cases h <;> rfl) | omega | (split at h <;> first | (cases h <;> rfl) | omega | (split at h <;> first | (cases h <;> rfl) | omega | (split at h <;> first | (cases h <;> rfl) | omega | cases h) | cases h) | cases h) | cases h

lemma execOpF_err_eq (s : Chip8) (op : Nat) (t : Chip8) (e : MachineError)
    (h : execOpF s op = CycleResult.err t e) : t = s := by
  unfold execOpF at h
  split at h <;> first | (cases h <;> rfl) | omega | (split at h <;> first | (cases h <;> rfl) | omega | (split at h <;> first | (cases h <;> rfl) | omega | (split at h <;> first | (cases h <;> rfl) | omega | cases h) | cases h) | cases h) | cases h

lemma execOp_err_eq (rnd : Nat) (s : Chip8) (op : Nat) (t : Chip8) (e : MachineError)
    (h : execOp rnd s op = CycleResult.err t e) : t = s := by
  have hnnn : opNNN op < 4096 := opNNN_lt op
  unfold execOp at h
  split at h <;>
    first
      | exact execOp0_err_eq s op t e h
      | exact execOp8_err_eq s op t e h
      | exact execOpE_err_eq s op t e h
      | exact execOpF_err_eq s op t e h
      | first | (cases h <;> rfl) | omega | (split at h <;> first | (cases h <;> rfl) | omega | (split at h <;> first | (cases h <;> rfl) | omega | (split at h <;> first | (cases h <;> rfl) | omega | cases h) | cases h) | cases h) | cases h

lemma execInstr_err_eq (rnd : Nat) (s : Chip8) (t : Chip8) (e : MachineError)
    (h : execInstr rnd s = CycleResult.err t e) : t = s := by
  unfold execInstr at h
  split at h
  · cases h <;> rfl
  · exact execOp_err_eq rnd s (fetchWord s) t e h

lemma execOp0_waiting (s : Chip8) (op : Nat) (t : Chip8)
    (h : execOp0 s op = CycleResult.waiting t) : False := by
  unfold execOp0 at h
  split at h <;> first | (cases h <;> rfl) | omega | (split at h <;> first | (cases h <;> rfl) | omega | (split at h <;> first | (cases h <;> rfl) | omega | (split at h <;> first | (cases h <;> rfl) | omega | cases h) | cases h) | cases h) | cases h

lemma execOp8_waiting (s : Chip8) (op : Nat) (t : Chip8)
    (h : execOp8 s op = CycleResult.waiting t) : False := by
  unfold execOp8 at h
  split at h <;> first | (cases h <;> rfl) | omega | (split at h <;> first | (cases h <;> rfl) | omega | (split at h <;> first | (cases h <;> rfl) | omega | (split at h <;> first | (cases h <;> rfl) | omega | cases h) | cases h) | cases h) | cases h

lemma execOpE_waiting (s : Chip8) (op : Nat) (t : Chip8)
    (h : execOpE s op = CycleResult.waiting t) : False := by
  unfold execOpE at h
  split at h <;> first | (cases h <;> rfl) | omega | (split at h <;> first | (cases h <;> rfl) | omega | (split at h <;> first | (cases h <;> rfl) | omega | (split at h <;> first | (cases h <;> rfl) | omega | cases h) | cases h) | cases h) | cases h

lemma execOpF_waiting_eq (s : Chip8) (op : Nat) (t : Chip8)
    (h : execOpF s op = CycleResult.waiting t) : t = s := by
  unfold execOpF at h
  split at h <;> first | (cases h <;> rfl) | omega | (split at h <;> first | (cases h <;> rfl) | omega | (split at h <;> first | (cases h <;> rfl) | omega | (split at h <;> first | (cases h <;> rfl) | omega | cases h) | cases h) | cases h) | cases h

lemma execOp_waiting_eq (rnd : Nat) (s : Chip8) (op : Nat) (t : Chip8)
    (h : execOp rnd s op = CycleResult.waiting t) : t = s := by
  unfold execOp at h
  split at h <;>
    first
      | exact absurd h (fun hh => execOp0_waiting s op t hh)
      | exact absurd h (fun hh => execOp8_waiting s op t hh)
      | exact absurd h (fun hh => execOpE_waiting s op t hh)
      | exact execOpF_waiting_eq s op t h
      | first | (cases h <;> rfl) | omega | (split at h <;> first | (cases h <;> rfl) | omega | (split at h <;> first | (cases h <;> rfl) | omega | (split at h <;> first | (cases h <;> rfl) | omega | cases h) | cases h) | cases h) | cases h

lemma execInstr_waiting_eq (rnd : Nat) (s : Chip8) (t : Chip8)
    (h : execInstr rnd s = CycleResult.waiting t) : t = s := by
  unfold execInstr at h
  split at h
  · cases h
  · exact execOp_waiting_eq rnd s (fetchWord s) t h

/-! ## Timer behaviour of successful cycles -/

lemma execOp0_ok_timers (s : Chip8) (op : Nat) (m : Chip8)
    (h : execOp0 s op = CycleResult.ok m) :
    m.delay_timer = s.delay_timer ∧ m.sound_timer = s.sound_timer := by
  unfold execOp0 at h
  split at h <;> first | (cases h <;> simp) | (split at h <;> first | (cases h <;> simp) | cases h) | cases h

lemma execOp8_ok_timers (s : Chip8) (op : Nat) (m : Chip8)
    (h : execOp8 s op = CycleResult.ok m) :
    m.delay_timer = s.delay_timer ∧ m.sound_timer = s.sound_timer := by
  unfold execOp8 at h
  split at h <;> first | (cases h <;> simp) | cases h

lemma execOpE_ok_timers (s : Chip8) (op : Nat) (m : Chip8)
    (h : execOpE s op = CycleResult.ok m) :
    m.delay_timer = s.delay_timer ∧ m.sound_timer = s.sound_timer := by
  unfold execOpE at h
  split at h <;> first | (cases h <;> simp) | cases h

lemma execOpF_ok_timers (s : Chip8) (op : Nat) (m : Chip8)
    (h : execOpF s op = CycleResult.ok m) :
    (opKK op ≠ 0x15 → m.delay_timer = s.delay_timer) ∧
    (opKK op ≠ 0x18 → m.sound_timer = s.sound_timer) := by
  unfold execOpF at h
  split at h <;> first | (cases h <;> simp_all) | (split at h <;> first | (cases h <;> simp_all) | cases h) | cases h

lemma execOp_ok_timers (rnd : Nat) (s : Chip8) (op : Nat) (m : Chip8)
    (h : execOp rnd s op = CycleResult.ok m) :
    (¬ isFX15 op → m.delay_timer = s.delay_timer) ∧
    (¬ isFX18 op → m.sound_timer = s.sound_timer) := by
  unfold execOp at h
  split at h
  · -- 0x0000
    exact (fun p => ⟨fun _ => p.1, fun _ => p.2⟩) (execOp0_ok_timers s op m h)
  · -- 0x1000
    split at h
    · cases h
    · cases h <;> simp
  · -- 0x2000
    split at h
    · cases h
    · split at h
      · cases h
      · cases h <;> simp
  · -- 0x3000
    cases h <;> simp
  · -- 0x4000
    cases h <;> simp
  · -- 0x5000
    split at h
    · cases h
    · cases h <;> simp
  · -- 0x6000
    cases h <;> simp
  · -- 0x7000
    cases h <;> simp
  · -- 0x8000
    exact (fun p => ⟨fun _ => p.1, fun _ => p.2⟩) (execOp8_ok_timers s op m h)
  · -- 0x9000
    split at h
    · cases h
    · cases h <;> simp
  · -- 0xA000
    cases h <;> simp
  · -- 0xB000
    cases h <;> simp
  · -- 0xC000
    cases h <;> simp
  · -- 0xD000
    split at h
    · cases h
    · cases h <;> simp
  · -- 0xE000
    exact (fun p => ⟨fun _ => p.1, fun _ => p.2⟩) (execOpE_ok_timers s op m h)
  · -- 0xF000
    refine (fun p => ⟨fun hn => p.1 fun hk => hn ⟨by assumption, hk⟩,
                      fun hn => p.2 fun hk => hn ⟨by assumption, hk⟩⟩)
      (execOpF_ok_timers s op m h)
  · -- default
    cases h <;> simp

lemma execInstr_ok_timers (rnd : Nat) (s : Chip8) (m : Chip8)
    (h : execInstr rnd s = CycleResult.ok m) :
    (¬ isFX15 (fetchWord s) → m.delay_timer = s.delay_timer) ∧
    (¬ isFX18 (fetchWord s) → m.sound_timer = s.sound_timer) := by
  unfold execInstr at h
  split at h
  · cases h
  · exact execOp_ok_timers rnd s (fetchWord s) m h

/-- C2: whenever `emulateCycle` returns an error of any kind (fetch bounds,
invalid opcode, stack overflow/underflow, address out of range, memory
bounds, invalid register state), the machine state — registers, index
register, PC, stack and stack pointer, memory, timers, framebuffer, dirty
flag — is identical to the state before the call; no instruction is
partially applied.  The embedding makes this non-trivial: each `err` result
carries the state at the moment of the throw, so a mutation made before a
throw (as the source's CALL handler would do if its post-push `nnn` check
could ever fire) would be visible here; the proof shows every error exits
before any mutation. -/
theorem c2_error_leaves_state_unchanged (rnd : Nat) (s : Chip8) (e : MachineError)
    (h : (emulateCycle rnd s).2 = some e) : (emulateCycle rnd s).1 = s := by
  unfold emulateCycle at h ⊢
  cases hE : execInstr rnd s with
  | ok m => rw [hE] at h; simp at h
  | waiting m => rw [hE] at h; simp at h
  | err m e2 => exact execInstr_err_eq rnd s m e2 hE

/-- Witness for C2, exercising every error kind of the taxonomy: fetch out
of bounds, RET on an empty stack, CALL on a full stack, FX1E past the
address space, an unlisted 8-family sub-opcode, and FX29 with a non-digit
register value — in each case the machine is left exactly as it was. -/
theorem c2_witness :
    ((emulateCycle 0 sC2w).2 = some MachineError.memoryBounds ∧
      (emulateCycle 0 sC2w).1 = sC2w) ∧
    ((emulateCycle 0 sC2underflow).2 = some MachineError.stackUnderflow ∧
      (emulateCycle 0 sC2underflow).1 = sC2underflow) ∧
    ((emulateCycle 0 sC2overflow).2 = some MachineError.stackOverflow ∧
      (emulateCycle 0 sC2overflow).1 = sC2overflow) ∧
    ((emulateCycle 0 sC2addr).2 = some MachineError.addressOutOfRange ∧
      (emulateCycle 0 sC2addr).1 = sC2addr) ∧
    ((emulateCycle 0 sC2invalid).2 = some MachineError.invalidOpcode ∧
      (emulateCycle 0 sC2invalid).1 = sC2invalid) ∧
    ((emulateCycle 0 sC2reg).2 = some MachineError.invalidRegisterState ∧
      (emulateCycle 0 sC2reg).1 = sC2reg) :=
  ⟨⟨by decide, c2_error_leaves_state_unchanged 0 sC2w MachineError.memoryBounds (by decide)⟩,
   ⟨by decide, c2_error_leaves_state_unchanged 0 sC2underflow
      MachineError.stackUnderflow (by decide)⟩,
   ⟨by decide, c2_error_leaves_state_unchanged 0 sC2overflow
      MachineError.stackOverflow (by decide)⟩,
   ⟨by decide, c2_error_leaves_state_unchanged 0 sC2addr
      MachineError.addressOutOfRange (by decide)⟩,
   ⟨by decide, c2_error_leaves_state_unchanged 0 sC2invalid
      MachineError.invalidOpcode (by decide)⟩,
   ⟨by decide, c2_error_leaves_state_unchanged 0 sC2reg
      MachineError.invalidRegisterState (by decide)⟩⟩

/-- C3 (amended): on every cycle that completes its instruction (`ok` — not
an error and not a blocked FX0A), both timers are decremented by one with
floor 0, exactly once, from their values after the instruction effect; those
values equal the pre-call values unless the instruction itself wrote the
timer (FX15 / FX18).  A blocked FX0A skips the timer update entirely. -/
theorem c3_timers_tick_once (rnd : Nat) (s m : Chip8)
    (h : execInstr rnd s = CycleResult.ok m) :
    (emulateCycle rnd s).2 = none ∧
    (emulateCycle rnd s).1.delay_timer = (if 0 < m.delay_timer then m.delay_timer - 1 else 0) ∧
    (emulateCycle rnd s).1.sound_timer = (if 0 < m.sound_timer then m.sound_timer - 1 else 0) ∧
    (¬ isFX15 (fetchWord s) → m.delay_timer = s.delay_timer) ∧
    (¬ isFX18 (fetchWord s) → m.sound_timer = s.sound_timer) := by
  have ht := execInstr_ok_timers rnd s m h
  unfold emulateCycle
  rw [h]
  refine ⟨rfl, ?_, ?_, ht.1, ht.2⟩
  · by_cases hd : 0 < m.delay_timer <;> simp [tickTimers, hd] <;> omega
  · by_cases hd : 0 < m.sound_timer <;> simp [tickTimers, hd] <;> omega

/-- Witness for C3 (amended): a CLS cycle with delay timer 3 completes with
no error and delay timer 2. -/
theorem c3_witness :
    (emulateCycle 0 sC3w).2 = none ∧ (emulateCycle 0 sC3w).1.delay_timer = 2 := by
  have hok : (execInstr 0 sC3w).isOk = true := by decide
  cases hE : execInstr 0 sC3w with
  | ok m =>
      obtain ⟨h1, h2, _, h4, _⟩ := c3_timers_tick_once 0 sC3w m hE
      refine ⟨h1, ?_⟩
      have hd : m.delay_timer = sC3w.delay_timer := h4 (by decide)
      rw [h2, hd]
      decide
  | waiting m => rw [hE] at hok; simp [CycleResult.isOk] at hok
  | err m e => rw [hE] at hok; simp [CycleResult.isOk] at hok

/-- Counterexample to C3 as stated: a cycle decoding FX0A with no key
pressed returns without error, yet the positive delay timer is not
decremented (the early return skips the timer update). -/
theorem c3_counterexample :
    (emulateCycle 0 sC3cx).2 = none ∧ sC3cx.delay_timer = 5 ∧
    (emulateCycle 0 sC3cx).1.delay_timer = 5 := by decide

/-! ## The ascending key scan of FX0A -/

lemma findRange (p : Nat → Bool) (n i : Nat) (h : (List.range n).find? p = some i) :
    p i = true ∧ i < n ∧ ∀ j, j < i → p j = false := by
  induction n with
  | zero => simp at h
  | succ n ih =>
    rw [List.range_succ, List.find?_append, Option.or_eq_some] at h
    cases h with
    | inl h =>
      obtain ⟨hp, hlt, hmin⟩ := ih h
      exact ⟨hp, Nat.lt_succ_of_lt hlt, hmin⟩
    | inr h =>
      obtain ⟨hf, h⟩ := h
      have hnone := List.find?_eq_none.mp hf
      rw [List.find?_cons] at h
      cases hpn : p n with
      | true =>
        rw [hpn] at h
        simp at h
        subst h
        refine ⟨hpn, Nat.lt_succ_self _, fun j hj => ?_⟩
        have := hnone j (List.mem_range.mpr hj)
        simpa using this
      | false => rw [hpn] at h; simp at h

lemma scanKey_none (key : Nat → Nat) (hk : ∀ i, i < 16 → key i = 0) :
    scanKey key = none := by
  unfold scanKey
  rw [List.find?_eq_none]
  intro x hx
  rw [List.mem_range] at hx
  simp [hk x hx]

lemma scanKey_some (key : Nat → Nat) (i : Nat) (h : scanKey key = some i) :
    i < 16 ∧ key i ≠ 0 ∧ ∀ j, j < i → key j = 0 := by
  obtain ⟨hp, hlt, hmin⟩ := findRange _ 16 i h
  refine ⟨hlt, by simpa using hp, fun j hj => by simpa using hmin j hj⟩

lemma scanKey_pressed (key : Nat → Nat) (i : Nat) (hi : i < 16) (hk : key i ≠ 0) :
    ∃ j, scanKey key = some j := by
  cases hs : scanKey key with
  | some j => exact ⟨j, rfl⟩
  | none =>
    exfalso
    unfold scanKey at hs
    rw [List.find?_eq_none] at hs
    have := hs i (List.mem_range.mpr hi)
    simp at this
    exact hk this

/-! ## Dispatch helpers for single-opcode reasoning -/

lemma execInstr_to_F (rnd : Nat) (s : Chip8) (hpc : s.pc + 1 < 4096)
    (hf : fetchWord s &&& 0xF000 = 0xF000) :
    execInstr rnd s = execOpF s (fetchWord s) := by
  unfold execInstr
  rw [if_neg (by omega : ¬ s.pc + 1 ≥ 4096)]
  unfold execOp
  rw [hf]

lemma execOpF_fx0a (s : Chip8) (op : Nat) (hkk : opKK op = 0x0A) :
    execOpF s op =
      (match scanKey s.key with
       | some i => CycleResult.ok { s with V := setV s.V (opX op) i, pc := (s.pc + 2) % 65536 }
       | none => CycleResult.waiting s) := by
  unfold execOpF
  rw [hkk]

/-- C4: when the instruction at PC is FX0A: with no key 0–15 pressed, the
cycle performs no state mutation at all and PC does not advance (the same
instruction is decoded again next call); with at least one key pressed, the
lowest pressed index is stored in Vx and PC advances by 2. -/
theorem c4_fx0a_blocking_wait (rnd : Nat) (s : Chip8)
    (hpc : s.pc + 1 < 4096)
    (hf : fetchWord s &&& 0xF000 = 0xF000)
    (hkk : opKK (fetchWord s) = 0x0A) :
    ((∀ i, i < 16 → s.key i = 0) → emulateCycle rnd s = (s, none)) ∧
    ((∃ i, i < 16 ∧ s.key i ≠ 0) →
      ∃ i, i < 16 ∧ s.key i ≠ 0 ∧ (∀ j, j < i → s.key j = 0) ∧
        (emulateCycle rnd s).2 = none ∧
        (emulateCycle rnd s).1.V (opX (fetchWord s)) = i ∧
        (emulateCycle rnd s).1.pc = s.pc + 2) := by
  have hdisp := execInstr_to_F rnd s hpc hf
  have hsub := execOpF_fx0a s (fetchWord s) hkk
  constructor
  · intro hk
    have hsk : scanKey s.key = none := scanKey_none s.key hk
    have hw : execInstr rnd s = CycleResult.waiting s := by
      rw [hdisp, hsub, hsk]
    unfold emulateCycle
    rw [hw]
  · rintro ⟨i0, hi0, hk0⟩
    obtain ⟨i, hsk⟩ := scanKey_pressed s.key i0 hi0 hk0
    obtain ⟨hi16, hki, hmin⟩ := scanKey_some s.key i hsk
    have hok : execInstr rnd s =
        CycleResult.ok { s with V := setV s.V (opX (fetchWord s)) i,
                                pc := (s.pc + 2) % 65536 } := by
      rw [hdisp, hsub, hsk]
    refine ⟨i, hi16, hki, hmin, ?_, ?_, ?_⟩
    · unfold emulateCycle
      rw [hok]
    · unfold emulateCycle
      rw [hok]
      show (tickTimers _).V _ = i
      simp [tickTimers, setV, updFn]
      omega
    · unfold emulateCycle
      rw [hok]
      show (tickTimers _).pc = s.pc + 2
      simp [tickTimers]
      omega

/-- Witness for C4: FX0A with x = 3 and exactly key 5 pressed stores 5 in V3
and advances PC from 0x200 to 0x202. -/
theorem c4_witness :
    (emulateCycle 0 sC4w).2 = none ∧ (emulateCycle 0 sC4w).1.V 3 = 5 ∧
    (emulateCycle 0 sC4w).1.pc = 0x202 := by
  obtain ⟨i, hi16, hki, hmin, h1, h2, h3⟩ :=
    (c4_fx0a_blocking_wait 0 sC4w (by decide) (by decide) (by decide)).2
      ⟨5, by decide, by decide⟩
  have hi5 : i = 5 := by
    by_contra hne
    exact hki (by simp [sC4w, hne])
  subst hi5
  have hx : opX (fetchWord sC4w) = 3 := by decide
  rw [hx] at h2
  exact ⟨h1, h2, h3⟩

/-- C1 (amended): unlisted sub-opcodes of the 0x0 / 0x5 / 0x8 / 0x9 families
(with the 0x0 family dispatching on the low nibble alone) abort the cycle
with `invalidOpcode` and no state change, timers included; but unlisted 0xE
and 0xF sub-opcodes are only logged: the cycle completes without an error,
PC is unchanged and the timers are still decremented. -/
theorem c1_unknown_opcodes (rnd : Nat) (s : Chip8) (hpc : s.pc + 1 < 4096) :
    (isStrictUnknown (fetchWord s) = true →
       emulateCycle rnd s = (s, some MachineError.invalidOpcode)) ∧
    (isLoggedUnknown (fetchWord s) = true →
       emulateCycle rnd s = (tickTimers s, none)) := by
  have hfetch : execInstr rnd s = execOp rnd s (fetchWord s) := by
    unfold execInstr
    rw [if_neg (by omega : ¬ s.pc + 1 ≥ 4096)]
  constructor
  · intro hs
    simp only [isStrictUnknown, Bool.or_eq_true, Bool.and_eq_true, beq_iff_eq, bne_iff_ne,
      ne_eq] at hs
    suffices hsf : execInstr rnd s = CycleResult.err s MachineError.invalidOpcode by
      unfold emulateCycle
      rw [hsf]
    rw [hfetch]
    rcases hs with ((hs | hs) | hs) | hs <;>
      (unfold execOp
       split <;>
         first
           | omega
           | rfl
           | ((try unfold execOp0); (try unfold execOp8); split <;> first | rfl | omega)
           | simp_all)
  · intro hs
    simp only [isLoggedUnknown, Bool.or_eq_true, Bool.and_eq_true, beq_iff_eq, bne_iff_ne,
      ne_eq] at hs
    suffices hsf : execInstr rnd s = CycleResult.ok s by
      unfold emulateCycle
      rw [hsf]
    rw [hfetch]
    rcases hs with hs | hs <;>
      (unfold execOp
       split <;>
         first
           | omega
           | rfl
           | ((try unfold execOpE); (try unfold execOpF); split <;> first | rfl | omega)
           | simp_all)

/-- Witness for C1 (amended): opcode 0x5001 aborts with `invalidOpcode` and
leaves the machine untouched. -/
theorem c1_witness :
    isStrictUnknown (fetchWord sC1w) = true ∧
    emulateCycle 0 sC1w = (sC1w, some MachineError.invalidOpcode) :=
  ⟨by decide, (c1_unknown_opcodes 0 sC1w (by decide)).1 (by decide)⟩

/-- Counterexample to C1 as stated: opcode 0xE0FF is not in the instruction
table, yet the cycle returns no error, and it has a side effect — the
positive delay timer is decremented (PC stays put, re-fetching the same
opcode forever). -/
theorem c1_counterexample :
    isLoggedUnknown (fetchWord sC1cx) = true ∧
    (emulateCycle 0 sC1cx).2 = none ∧
    sC1cx.delay_timer = 5 ∧ (emulateCycle 0 sC1cx).1.delay_timer = 4 ∧
    (emulateCycle 0 sC1cx).1.pc = sC1cx.pc := by decide

/-! ## loadGame -/

lemma loadGame_fst (bytes : List Nat) (s : Chip8) :
    (loadGame bytes s).1 =
      { s with memory := fun a =>
          if 0x200 ≤ a ∧ a < 0x200 + min bytes.length 3584 then
            (bytes.getD (a - 0x200) 0) % 256
          else s.memory a } := by
  by_cases hb : min bytes.length 3584 = 0 <;> simp [loadGame, hb]

/-- C7 (amended): `loadGame` fails iff the byte buffer is empty; a buffer
longer than 3584 bytes is not an error but is silently truncated — exactly
the first `min length 3584` bytes are copied to memory starting at 0x200,
all other memory bytes and every other component of the machine state are
unchanged. -/
theorem c7_loadgame_truncates (bytes : List Nat) (s : Chip8) :
    ((loadGame bytes s).2 = none ↔ bytes ≠ []) ∧
    (∀ i, i < min bytes.length 3584 →
        (loadGame bytes s).1.memory (0x200 + i) = bytes.getD i 0 % 256) ∧
    (∀ a, a < 0x200 → (loadGame bytes s).1.memory a = s.memory a) ∧
    (∀ a, 0x200 + min bytes.length 3584 ≤ a → (loadGame bytes s).1.memory a = s.memory a) ∧
    (loadGame bytes s).1.V = s.V ∧ (loadGame bytes s).1.I = s.I ∧
    (loadGame bytes s).1.pc = s.pc ∧ (loadGame bytes s).1.gfx = s.gfx ∧
    (loadGame bytes s).1.delay_timer = s.delay_timer ∧
    (loadGame bytes s).1.sound_timer = s.sound_timer ∧
    (loadGame bytes s).1.stack = s.stack ∧ (loadGame bytes s).1.sp = s.sp ∧
    (loadGame bytes s).1.key = s.key ∧ (loadGame bytes s).1.drawFlag = s.drawFlag := by
  have hfst := loadGame_fst bytes s
  refine ⟨?_, ?_, ?_, ?_, ?_, ?_, ?_, ?_, ?_, ?_, ?_, ?_, ?_, ?_⟩
  · by_cases hb : bytes = []
    · subst hb
      simp [loadGame]
    · have hlen : bytes.length ≠ 0 := fun hh => hb (List.length_eq_zero.mp hh)
      have hmin : ¬ min bytes.length 3584 = 0 := by omega
      simp [loadGame, hmin, hb]
  · intro i hi
    rw [hfst]
    show (if _ then _ else _) = _
    rw [if_pos ⟨by omega, by omega⟩]
    have h2 : 0x200 + i - 0x200 = i := by omega
    rw [h2]
  · intro a ha
    rw [hfst]
    show (if _ then _ else _) = _
    rw [if_neg (by omega)]
  · intro a ha
    rw [hfst]
    show (if _ then _ else _) = _
    rw [if_neg (by omega)]
  all_goals rw [hfst]

lemma loadGame_snd (bytes : List Nat) (s : Chip8) :
    (loadGame bytes s).2 =
      if min bytes.length 3584 = 0 then some LoadError.emptyRom else none := by
  by_cases hb : min bytes.length 3584 = 0 <;> simp [loadGame, hb]

/-- Witness for C7 (amended): loading a one-byte program succeeds and puts
that byte at 0x200. -/
theorem c7_witness :
    (loadGame [0xAB] initChip8).2 = none ∧
    (loadGame [0xAB] initChip8).1.memory 0x200 = 0xAB := by
  have h := c7_loadgame_truncates [0xAB] initChip8
  refine ⟨h.1.mpr (by simp), ?_⟩
  have h2 := h.2.1 0 (by simp)
  simpa using h2

/-- Counterexample to C7 as stated: a 3585-byte buffer exceeds
`4096 - 0x200 = 3584`, yet `loadGame` does not fail — `fread` silently
truncates the read to 3584 bytes. -/
theorem c7_counterexample :
    3584 < (List.replicate 3585 1).length ∧
    (loadGame (List.replicate 3585 1) initChip8).2 = none := by
  have hlen : (List.replicate 3585 1).length = 3585 := List.length_replicate 3585 1
  constructor
  · omega
  · rw [loadGame_snd, if_neg (by omega)]

/-! ## 8XY4 carry semantics -/

lemma execOp8_add (s : Chip8) (op : Nat) (hn : opN op = 0x4) :
    execOp8 s op = CycleResult.ok { s with
      V := (fun V1 => setV V1 (opX op) (V1 (opX op) + V1 (opY op)))
             (setV s.V 15 (if 0xFF - s.V (opX op) < s.V (opY op) then 1 else 0)),
      pc := (s.pc + 2) % 65536 } := by
  unfold execOp8
  rw [hn]

/-- C9 (amended): for x ≠ 0xF and y ≠ 0xF and byte-valued registers, 8XY4
sets VF to 1 iff Vx + Vy > 255 and stores (Vx + Vy) mod 256 in Vx.  (When x
or y is 0xF the handler's early write of the carry into V[0xF] corrupts the
operand, see the counterexample.) -/
theorem c9_add_carry (rnd : Nat) (s : Chip8)
    (hpc : s.pc + 1 < 4096)
    (hf : fetchWord s &&& 0xF000 = 0x8000)
    (hn : opN (fetchWord s) = 0x4)
    (hx : opX (fetchWord s) ≠ 15) (hy : opY (fetchWord s) ≠ 15)
    (ha : s.V (opX (fetchWord s)) < 256) (hb : s.V (opY (fetchWord s)) < 256) :
    (emulateCycle rnd s).2 = none ∧
    (emulateCycle rnd s).1.V (opX (fetchWord s)) =
      (s.V (opX (fetchWord s)) + s.V (opY (fetchWord s))) % 256 ∧
    ((emulateCycle rnd s).1.V 15 = 1 ↔
      255 < s.V (opX (fetchWord s)) + s.V (opY (fetchWord s))) := by
  have hstep : execInstr rnd s = execOp8 s (fetchWord s) := by
    unfold execInstr
    rw [if_neg (by omega : ¬ s.pc + 1 ≥ 4096)]
    unfold execOp
    rw [hf]
  rw [execOp8_add s _ hn] at hstep
  unfold emulateCycle
  rw [hstep]
  refine ⟨rfl, ?_, ?_⟩
  · show (tickTimers _).V _ = _
    simp [tickTimers, setV, updFn, hx, hy]
  · show (tickTimers _).V 15 = 1 ↔ _
    have hiff : (0xFF - s.V (opX (fetchWord s)) < s.V (opY (fetchWord s))) ↔
        255 < s.V (opX (fetchWord s)) + s.V (opY (fetchWord s)) := by omega
    simp only [tickTimers]
    simp [setV, updFn, Ne.symm hx, Ne.symm hy, hiff]
    split_ifs with hc <;> simp [hc]

/-- Witness for C9 (amended): ADD V0, V1 with V0 = 200, V1 = 100 stores
44 = 300 mod 256 and sets VF. -/
theorem c9_witness :
    (emulateCycle 0 sC9w).2 = none ∧ (emulateCycle 0 sC9w).1.V 0 = 44 ∧
    (emulateCycle 0 sC9w).1.V 15 = 1 := by
  obtain ⟨h1, h2, h3⟩ := c9_add_carry 0 sC9w (by decide) (by decide) (by decide)
    (by decide) (by decide) (by decide) (by decide)
  have hxv : opX (fetchWord sC9w) = 0 := by decide
  have hyv : opY (fetchWord sC9w) = 1 := by decide
  rw [hxv, hyv] at h2
  rw [hxv, hyv] at h3
  refine ⟨h1, ?_, h3.mpr (by decide)⟩
  rw [h2]
  decide

/-- Counterexample to C9 as stated: opcode 0x80F4 (8XY4 with y = 0xF),
V0 = 10, VF = 20: the handler writes the carry flag into V[0xF] before
reading V[y], so V0 ends up 10, not (10 + 20) mod 256 = 30. -/
theorem c9_counterexample :
    fetchWord sC9cx &&& 0xF000 = 0x8000 ∧ opN (fetchWord sC9cx) = 4 ∧
    sC9cx.V 0 = 10 ∧ sC9cx.V 15 = 20 ∧
    (emulateCycle 0 sC9cx).2 = none ∧
    (emulateCycle 0 sC9cx).1.V 0 ≠ (10 + 20) % 256 := by decide

/-! ## The sprite draw as a toggle list -/

lemma foldl_guard_eq_drawList (p : Nat → Prop) [DecidablePred p] (f : Nat → Nat)
    (l : List Nat) :
    ∀ st : (Nat → Nat) × Nat,
      l.foldl (fun st2 a => if p a then drawStep st2 (f a) else st2) st
        = drawList st (l.filterMap fun a => if p a then some (f a) else none) := by
  induction l with
  | nil => intro st; rfl
  | cons a l ih =>
    intro st
    by_cases hp : p a <;> simp only [List.foldl_cons, List.filterMap_cons, if_pos, if_neg,
      hp, ite_true, ite_false, reduceIte]
    · rw [ih]
      rfl
    · exact ih st

lemma drawRow_eq (pixel xpos ybase : Nat) (st : (Nat → Nat) × Nat) :
    drawRow pixel xpos ybase st = drawList st (rowIndices pixel xpos ybase) := by
  unfold drawRow rowIndices
  exact foldl_guard_eq_drawList
    (fun xl => xpos + xl + ybase < 2048 ∧ pixel &&& (0x80 >>> xl) ≠ 0)
    (fun xl => xpos + xl + ybase) (List.range 8) st

lemma drawList_append (st : (Nat → Nat) × Nat) (l1 l2 : List Nat) :
    drawList st (l1 ++ l2) = drawList (drawList st l1) l2 :=
  List.foldl_append drawStep st l1 l2

lemma drawSprite_eq_drawList (mem g : Nat → Nat) (xpos ypos I h : Nat) :
    drawSprite mem g xpos ypos I h = drawList (g, 0) (spriteIndices mem I xpos ypos h) := by
  induction h with
  | zero => rfl
  | succ n ih =>
    unfold drawSprite spriteIndices at *
    rw [List.range_succ, List.foldl_append, List.flatMap_append, drawList_append, ih]
    simp only [List.foldl_cons, List.foldl_nil, List.flatMap_cons, List.flatMap_nil,
      List.append_nil]
    rw [drawRow_eq]

lemma drawList_fst (L : List Nat) (hnd : L.Nodup) :
    ∀ (g : Nat → Nat) (vf j : Nat),
      (drawList (g, vf) L).1 j = if j ∈ L then g j ^^^ 1 else g j := by
  induction L with
  | nil => intro g vf j; simp [drawList]
  | cons i L ih =>
    intro g vf j
    obtain ⟨hni, hndL⟩ := List.nodup_cons.mp hnd
    have hstep : drawList (g, vf) (i :: L) =
        drawList (updFn g i (g i ^^^ 1), if g i = 1 then 1 else vf) L := rfl
    rw [hstep, ih hndL]
    by_cases hj : j = i
    · subst hj
      simp [updFn, hni]
    · simp [updFn, hj, List.mem_cons]

lemma drawList_snd (L : List Nat) (hnd : L.Nodup) :
    ∀ (g : Nat → Nat) (vf : Nat),
      ((drawList (g, vf) L).2 = 1 ↔ vf = 1 ∨ ∃ i ∈ L, g i = 1) := by
  induction L with
  | nil => intro g vf; simp [drawList]
  | cons i L ih =>
    intro g vf
    obtain ⟨hni, hndL⟩ := List.nodup_cons.mp hnd
    have hstep : drawList (g, vf) (i :: L) =
        drawList (updFn g i (g i ^^^ 1), if g i = 1 then 1 else vf) L := rfl
    rw [hstep, ih hndL]
    have hg1 : ∀ j ∈ L, updFn g i (g i ^^^ 1) j = g j := by
      intro j hj
      have : j ≠ i := fun hh => hni (hh ▸ hj)
      simp [updFn, this]
    have hex : (∃ j ∈ L, updFn g i (g i ^^^ 1) j = 1) ↔ (∃ j ∈ L, g j = 1) := by
      constructor
      · rintro ⟨j, hj, hje⟩
        exact ⟨j, hj, by rwa [hg1 j hj] at hje⟩
      · rintro ⟨j, hj, hje⟩
        exact ⟨j, hj, by rwa [hg1 j hj]⟩
    rw [hex]
    by_cases hgi : g i = 1 <;> simp [hgi, List.mem_cons] <;> tauto

lemma rowIndices_mem (pixel xpos ybase c : Nat) :
    c ∈ rowIndices pixel xpos ybase ↔
      ∃ xl, xl < 8 ∧ pixel &&& (0x80 >>> xl) ≠ 0 ∧ c = xpos + xl + ybase ∧ c < 2048 := by
  unfold rowIndices
  rw [List.mem_filterMap]
  constructor
  · rintro ⟨a, ha, hsome⟩
    rw [List.mem_range] at ha
    split_ifs at hsome with hcond
    · cases hsome
      exact ⟨a, ha, hcond.2, rfl, hcond.1⟩
  · rintro ⟨xl, hxl, hbit, rfl, hlt⟩
    exact ⟨xl, List.mem_range.mpr hxl, by rw [if_pos ⟨hlt, hbit⟩]⟩

lemma rowIndices_nodup (pixel xpos ybase : Nat) : (rowIndices pixel xpos ybase).Nodup := by
  unfold rowIndices
  apply List.Nodup.filterMap ?_ (List.nodup_range 8)
  intro a b c hca hcb
  rw [Option.mem_def] at hca hcb
  split_ifs at hca hcb
  injection hca with h1
  injection hcb with h2
  omega

lemma spriteIndices_nodup (mem : Nat → Nat) (I xpos ypos h : Nat) :
    (spriteIndices mem I xpos ypos h).Nodup := by
  unfold spriteIndices
  rw [List.nodup_flatMap]
  refine ⟨fun yl _ => rowIndices_nodup _ _ _, ?_⟩
  have hlt : List.Pairwise (· < ·) (List.range h) := List.pairwise_lt_range h
  refine hlt.imp ?_
  intro a b hab c hc1 hc2
  rw [rowIndices_mem] at hc1 hc2
  obtain ⟨x1, hx1, _, he1, _⟩ := hc1
  obtain ⟨x2, hx2, _, he2, _⟩ := hc2
  omega

lemma spriteIndices_mem (mem : Nat → Nat) (I xpos ypos h c : Nat) :
    c ∈ spriteIndices mem I xpos ypos h ↔
      ∃ yl, yl < h ∧ ∃ xl, xl < 8 ∧ mem (I + yl) &&& (0x80 >>> xl) ≠ 0 ∧
        c = xpos + xl + (ypos + yl) * 64 ∧ c < 2048 := by
  unfold spriteIndices
  rw [List.mem_flatMap]
  constructor
  · rintro ⟨yl, hyl, hc⟩
    rw [List.mem_range] at hyl
    rw [rowIndices_mem] at hc
    exact ⟨yl, hyl, hc⟩
  · rintro ⟨yl, hyl, hc⟩
    exact ⟨yl, List.mem_range.mpr hyl, (rowIndices_mem _ _ _ _).mpr hc⟩

lemma drawSprite_fst (mem g : Nat → Nat) (xpos ypos I h j : Nat) :
    (drawSprite mem g xpos ypos I h).1 j =
      if j ∈ spriteIndices mem I xpos ypos h then g j ^^^ 1 else g j := by
  rw [drawSprite_eq_drawList]
  exact drawList_fst _ (spriteIndices_nodup mem I xpos ypos h) g 0 j

lemma drawSprite_snd (mem g : Nat → Nat) (xpos ypos I h : Nat) :
    ((drawSprite mem g xpos ypos I h).2 = 1 ↔
      ∃ i ∈ spriteIndices mem I xpos ypos h, g i = 1) := by
  rw [drawSprite_eq_drawList]
  rw [drawList_snd _ (spriteIndices_nodup mem I xpos ypos h) g 0]
  simp

/-- C8 (amended): DXYN clips only vertically-linear overflow — a target
pixel is discarded iff its linear index `xpos + xline + (ypos + yline)*64`
reaches 2048 or beyond; horizontal overflow is not clipped: a set sprite bit
whose column passes 63 but whose linear index stays below 2048 is XOR-drawn
at that linear index (the start of the following row) and participates in
collision exactly like an in-grid pixel. -/
theorem c8_draw_clipping (mem g : Nat → Nat) (xpos ypos I h j : Nat) :
    ((drawSprite mem g xpos ypos I h).1 j =
      if j ∈ spriteIndices mem I xpos ypos h then g j ^^^ 1 else g j) ∧
    ((drawSprite mem g xpos ypos I h).2 = 1 ↔
      ∃ i ∈ spriteIndices mem I xpos ypos h, g i = 1) ∧
    (j ∈ spriteIndices mem I xpos ypos h ↔
      ∃ yl, yl < h ∧ ∃ xl, xl < 8 ∧ mem (I + yl) &&& (0x80 >>> xl) ≠ 0 ∧
        j = xpos + xl + (ypos + yl) * 64 ∧ j < 2048) :=
  ⟨drawSprite_fst mem g xpos ypos I h j, drawSprite_snd mem g xpos ypos I h,
   spriteIndices_mem mem I xpos ypos h j⟩

/-- Witness for C8 (amended): drawing the 0xFF row at (0, 31) for two rows
sets cell 31*64 = 1984 and discards the entire second row (indices ≥ 2048),
leaving every cell at index ≥ 2048 untouched. -/
theorem c8_witness :
    (drawSprite memSpriteFF gfxZero 0 31 0 2).1 1984 = 1 ∧
    (∀ j, 2048 ≤ j → (drawSprite memSpriteFF gfxZero 0 31 0 2).1 j = gfxZero j) := by
  constructor
  · rw [(c8_draw_clipping memSpriteFF gfxZero 0 31 0 2 1984).1, if_pos (by decide)]
    decide
  · intro j hj
    rw [(c8_draw_clipping memSpriteFF gfxZero 0 31 0 2 j).1, if_neg ?_]
    intro hmem
    obtain ⟨yl, hyl, xl, hxl, hbit, hje, hjlt⟩ :=
      (c8_draw_clipping memSpriteFF gfxZero 0 31 0 2 j).2.2.mp hmem
    omega

/-- Counterexample to C8 as stated: drawing the byte 0xFF at x = 62, y = 0
puts the pixel of column 64 — outside the 64-wide grid — at linear index 64,
which is framebuffer cell (0, 1): an off-screen target pixel is drawn at
another framebuffer cell instead of being discarded. -/
theorem c8_counterexample :
    (drawSprite memSpriteFF gfxZero 62 0 0 1).1 64 = 1 ∧
    gfxZero 64 = 0 := by decide

/-- C10 (amended): drawing the same sprite twice with the same coordinates,
index register and memory always restores the framebuffer; the second draw
reports collision (VF = 1) provided at least one drawn pixel targets a cell
that was clear before the first draw.  (If every targeted cell was already
set — or no pixel lands on the screen — the first draw clears them all and
the second draw reports VF = 0.) -/
theorem c10_double_draw (mem g : Nat → Nat) (xpos ypos I h : Nat) :
    (drawSprite mem (drawSprite mem g xpos ypos I h).1 xpos ypos I h).1 = g ∧
    ((∃ i ∈ spriteIndices mem I xpos ypos h, g i = 0) →
      (drawSprite mem (drawSprite mem g xpos ypos I h).1 xpos ypos I h).2 = 1) := by
  constructor
  · funext j
    rw [drawSprite_fst, drawSprite_fst]
    by_cases hj : j ∈ spriteIndices mem I xpos ypos h <;> simp [hj]
    exact Nat.xor_cancel_right 1 (g j)
  · rintro ⟨i, hi, hgi⟩
    rw [drawSprite_snd]
    refine ⟨i, hi, ?_⟩
    rw [drawSprite_fst, if_pos hi, hgi]
    decide

/-- Witness for C10 (amended): a one-pixel sprite drawn twice on a clear
framebuffer restores it and collides on the second draw. -/
theorem c10_witness :
    (drawSprite memSprite80 (drawSprite memSprite80 gfxZero 0 0 0 1).1 0 0 0 1).1 = gfxZero ∧
    (drawSprite memSprite80 (drawSprite memSprite80 gfxZero 0 0 0 1).1 0 0 0 1).2 = 1 := by
  have h := c10_double_draw memSprite80 gfxZero 0 0 0 1
  exact ⟨h.1, h.2 ⟨0, by decide, rfl⟩⟩

/-- Counterexample to C10 as stated: when the single target cell is already
set, the first draw clears it, so the second identical draw sees an empty
cell and leaves VF = 0, not 1 (the framebuffer is still restored). -/
theorem c10_counterexample :
    gfxOne 0 = 1 ∧
    (drawSprite memSprite80 (drawSprite memSprite80 gfxOne 0 0 0 1).1 0 0 0 1).2 = 0 := by
  decide

/-! ## Memory writes stay at I-based addresses -/

lemma foldl_setMem_lo (V : Nat → Nat) (base n : Nat) (mm : Nat → Nat) (a : Nat)
    (ha : a < base) :
    ((List.range n).foldl (fun m i => setMem m (base + i) (V i)) mm) a = mm a := by
  induction n with
  | zero => rfl
  | succ n ih =>
    rw [List.range_succ, List.foldl_append]
    simp only [List.foldl_cons, List.foldl_nil]
    show setMem _ (base + n) (V n) a = mm a
    unfold setMem updFn
    rw [if_neg (by omega)]
    exact ih

lemma execOpF_ok_mem_lo (s : Chip8) (op : Nat) (m : Chip8)
    (h : execOpF s op = CycleResult.ok m) (hI : 0x50 ≤ s.I) (a : Nat) (ha : a < 0x50) :
    m.memory a = s.memory a := by
  unfold execOpF at h
  split at h
  · cases h <;> simp
  · split at h <;> first | (cases h <;> simp) | cases h
  · cases h <;> simp
  · cases h <;> simp
  · split at h
    · cases h
    · cases h <;> simp
  · split at h
    · cases h
    · cases h <;> simp
  · -- FX33
    split at h
    · cases h
    · cases h
      show (setMem (setMem (setMem s.memory s.I _) (s.I + 1) _) (s.I + 2) _) a = s.memory a
      unfold setMem updFn
      rw [if_neg (by omega), if_neg (by omega), if_neg (by omega)]
  · -- FX55
    split at h
    · cases h
    · cases h
      exact foldl_setMem_lo s.V s.I (opX op + 1) s.memory a (by omega)
  · split at h
    · cases h
    · cases h <;> simp
  · cases h <;> simp

lemma execOp_ok_mem_lo (rnd : Nat) (s : Chip8) (op : Nat) (m : Chip8)
    (h : execOp rnd s op = CycleResult.ok m) (hI : 0x50 ≤ s.I) (a : Nat) (ha : a < 0x50) :
    m.memory a = s.memory a := by
  unfold execOp at h
  split at h
  · unfold execOp0 at h
    split at h <;>
      first
        | (cases h <;> simp)
        | (split at h <;> first | (cases h <;> simp) | cases h)
        | cases h
  · split at h <;> first | (cases h <;> simp) | cases h
  · split at h <;> first | (cases h <;> simp) | cases h |
      (split at h <;> first | (cases h <;> simp) | cases h)
  · cases h <;> simp
  · cases h <;> simp
  · split at h <;> first | (cases h <;> simp) | cases h
  · cases h <;> simp
  · cases h <;> simp
  · unfold execOp8 at h
    split at h <;> first | (cases h <;> simp) | cases h
  · split at h <;> first | (cases h <;> simp) | cases h
  · cases h <;> simp
  · cases h <;> simp
  · cases h <;> simp
  · split at h <;> first | (cases h <;> simp) | cases h
  · unfold execOpE at h
    split at h <;> first | (cases h <;> simp) | cases h
  · exact execOpF_ok_mem_lo s op m h hI a ha
  · cases h <;> simp

lemma execInstr_ok_mem_lo (rnd : Nat) (s : Chip8) (m : Chip8)
    (h : execInstr rnd s = CycleResult.ok m) (hI : 0x50 ≤ s.I) (a : Nat) (ha : a < 0x50) :
    m.memory a = s.memory a := by
  unfold execInstr at h
  split at h
  · cases h
  · exact execOp_ok_mem_lo rnd s (fetchWord s) m h hI a ha

/-- C6 (amended): memory bytes 0x000–0x04F (the glyph area) are unchanged by
every successful cycle whose pre-state has I ≥ 0x50; the guard is needed
because FX33/FX55 write at I-based addresses with no lower bound, so a
program that points I below 0x50 can overwrite the font. -/
theorem c6_font_preserved (rnd : Nat) (s : Chip8)
    (h : (emulateCycle rnd s).2 = none) (hI : 0x50 ≤ s.I)
    (a : Nat) (ha : a < 0x50) :
    (emulateCycle rnd s).1.memory a = s.memory a := by
  unfold emulateCycle at h ⊢
  cases hE : execInstr rnd s with
  | ok m =>
      show (tickTimers m).memory a = s.memory a
      simp only [tickTimers]
      exact execInstr_ok_mem_lo rnd s m hE hI a ha
  | waiting m =>
      show m.memory a = s.memory a
      rw [execInstr_waiting_eq rnd s m hE]
  | err m e =>
      rw [hE] at h
      simp at h

/-- Witness for C6 (amended): FX33 with I = 0x300 leaves memory byte 0
(first font byte) unchanged. -/
theorem c6_witness :
    (emulateCycle 0 sC6w).2 = none ∧ 0x50 ≤ sC6w.I ∧
    (emulateCycle 0 sC6w).1.memory 0 = sC6w.memory 0 :=
  ⟨by decide, by decide, c6_font_preserved 0 sC6w (by decide) (by decide) 0 (by decide)⟩

/-- Counterexample to C6 as stated: after reset, I = 0; executing FX33 (BCD
of V0 = 0) writes memory[0..2] and destroys the first font byte
(0xF0 becomes 0) on a successful cycle. -/
theorem c6_counterexample :
    sC6cx.memory 0 = 0xF0 ∧ (emulateCycle 0 sC6cx).2 = none ∧
    (emulateCycle 0 sC6cx).1.memory 0 = 0 := by decide

/-! ## The PC / stack / register bounds maintained by successful cycles -/

lemma foldl_setV_lt (mem : Nat → Nat) (base n : Nat) (V : Nat → Nat)
    (hV : ∀ j, V j < 256) :
    ∀ j, ((List.range n).foldl (fun Vf i => setV Vf i (mem (base + i))) V) j < 256 := by
  induction n with
  | zero => exact hV
  | succ n ih =>
    rw [List.range_succ, List.foldl_append]
    simp only [List.foldl_cons, List.foldl_nil]
    exact setV_lt _ _ _ ih

lemma execOp_ok_inv (rnd : Nat) (s : Chip8) (op : Nat) (m : Chip8)
    (h : execOp rnd s op = CycleResult.ok m) (hpc : s.pc ≤ 4094)
    (hinv : MachineInv s) : MachineInv m := by
  obtain ⟨h1, h2, h3⟩ := hinv
  have hnnn := opNNN_lt op
  unfold MachineInv
  unfold execOp at h
  split at h
  · unfold execOp0 at h
    first | (cases h; exact ⟨by (try simp); (try split) <;> (have hr2 := h2 (s.sp - 1); have hv0 := h3 0; omega), fun i => by first | exact h2 i | (show updFn s.stack s.sp s.pc i ≤ 4094; unfold updFn; split <;> first | omega | exact h2 i), fun i => by first | exact h3 i | exact setV_lt _ _ _ h3 i | exact setV_lt _ _ _ (fun k => setV_lt _ _ _ h3 k) i | exact foldl_setV_lt _ _ _ _ h3 i⟩) | cases h | (split at h <;> (first | (cases h; exact ⟨by (try simp); (try split) <;> (have hr2 := h2 (s.sp - 1); have hv0 := h3 0; omega), fun i => by first | exact h2 i | (show updFn s.stack s.sp s.pc i ≤ 4094; unfold updFn; split <;> first | omega | exact h2 i), fun i => by first | exact h3 i | exact setV_lt _ _ _ h3 i | exact setV_lt _ _ _ (fun k => setV_lt _ _ _ h3 k) i | exact foldl_setV_lt _ _ _ _ h3 i⟩) | cases h | (split at h <;> (first | (cases h; exact ⟨by (try simp); (try split) <;> (have hr2 := h2 (s.sp - 1); have hv0 := h3 0; omega), fun i => by first | exact h2 i | (show updFn s.stack s.sp s.pc i ≤ 4094; unfold updFn; split <;> first | omega | exact h2 i), fun i => by first | exact h3 i | exact setV_lt _ _ _ h3 i | exact setV_lt _ _ _ (fun k => setV_lt _ _ _ h3 k) i | exact foldl_setV_lt _ _ _ _ h3 i⟩) | cases h))))
  · first | (cases h; exact ⟨by (try simp); (try split) <;> (have hr2 := h2 (s.sp - 1); have hv0 := h3 0; omega), fun i => by first | exact h2 i | (show updFn s.stack s.sp s.pc i ≤ 4094; unfold updFn; split <;> first | omega | exact h2 i), fun i => by first | exact h3 i | exact setV_lt _ _ _ h3 i | exact setV_lt _ _ _ (fun k => setV_lt _ _ _ h3 k) i | exact foldl_setV_lt _ _ _ _ h3 i⟩) | cases h | (split at h <;> (first | (cases h; exact ⟨by (try simp); (try split) <;> (have hr2 := h2 (s.sp - 1); have hv0 := h3 0; omega), fun i => by first | exact h2 i | (show updFn s.stack s.sp s.pc i ≤ 4094; unfold updFn; split <;> first | omega | exact h2 i), fun i => by first | exact h3 i | exact setV_lt _ _ _ h3 i | exact setV_lt _ _ _ (fun k => setV_lt _ _ _ h3 k) i | exact foldl_setV_lt _ _ _ _ h3 i⟩) | cases h | (split at h <;> (first | (cases h; exact ⟨by (try simp); (try split) <;> (have hr2 := h2 (s.sp - 1); have hv0 := h3 0; omega), fun i => by first | exact h2 i | (show updFn s.stack s.sp s.pc i ≤ 4094; unfold updFn; split <;> first | omega | exact h2 i), fun i => by first | exact h3 i | exact setV_lt _ _ _ h3 i | exact setV_lt _ _ _ (fun k => setV_lt _ _ _ h3 k) i | exact foldl_setV_lt _ _ _ _ h3 i⟩) | cases h))))
  · first | (cases h; exact ⟨by (try simp); (try split) <;> (have hr2 := h2 (s.sp - 1); have hv0 := h3 0; omega), fun i => by first | exact h2 i | (show updFn s.stack s.sp s.pc i ≤ 4094; unfold updFn; split <;> first | omega | exact h2 i), fun i => by first | exact h3 i | exact setV_lt _ _ _ h3 i | exact setV_lt _ _ _ (fun k => setV_lt _ _ _ h3 k) i | exact foldl_setV_lt _ _ _ _ h3 i⟩) | cases h | (split at h <;> (first | (cases h; exact ⟨by (try simp); (try split) <;> (have hr2 := h2 (s.sp - 1); have hv0 := h3 0; omega), fun i => by first | exact h2 i | (show updFn s.stack s.sp s.pc i ≤ 4094; unfold updFn; split <;> first | omega | exact h2 i), fun i => by first | exact h3 i | exact setV_lt _ _ _ h3 i | exact setV_lt _ _ _ (fun k => setV_lt _ _ _ h3 k) i | exact foldl_setV_lt _ _ _ _ h3 i⟩) | cases h | (split at h <;> (first | (cases h; exact ⟨by (try simp); (try split) <;> (have hr2 := h2 (s.sp - 1); have hv0 := h3 0; omega), fun i => by first | exact h2 i | (show updFn s.stack s.sp s.pc i ≤ 4094; unfold updFn; split <;> first | omega | exact h2 i), fun i => by first | exact h3 i | exact setV_lt _ _ _ h3 i | exact setV_lt _ _ _ (fun k => setV_lt _ _ _ h3 k) i | exact foldl_setV_lt _ _ _ _ h3 i⟩) | cases h))))
  · first | (cases h; exact ⟨by (try simp); (try split) <;> (have hr2 := h2 (s.sp - 1); have hv0 := h3 0; omega), fun i => by first | exact h2 i | (show updFn s.stack s.sp s.pc i ≤ 4094; unfold updFn; split <;> first | omega | exact h2 i), fun i => by first | exact h3 i | exact setV_lt _ _ _ h3 i | exact setV_lt _ _ _ (fun k => setV_lt _ _ _ h3 k) i | exact foldl_setV_lt _ _ _ _ h3 i⟩) | cases h | (split at h <;> (first | (cases h; exact ⟨by (try simp); (try split) <;> (have hr2 := h2 (s.sp - 1); have hv0 := h3 0; omega), fun i => by first | exact h2 i | (show updFn s.stack s.sp s.pc i ≤ 4094; unfold updFn; split <;> first | omega | exact h2 i), fun i => by first | exact h3 i | exact setV_lt _ _ _ h3 i | exact setV_lt _ _ _ (fun k => setV_lt _ _ _ h3 k) i | exact foldl_setV_lt _ _ _ _ h3 i⟩) | cases h | (split at h <;> (first | (cases h; exact ⟨by (try simp); (try split) <;> (have hr2 := h2 (s.sp - 1); have hv0 := h3 0; omega), fun i => by first | exact h2 i | (show updFn s.stack s.sp s.pc i ≤ 4094; unfold updFn; split <;> first | omega | exact h2 i), fun i => by first | exact h3 i | exact setV_lt _ _ _ h3 i | exact setV_lt _ _ _ (fun k => setV_lt _ _ _ h3 k) i | exact foldl_setV_lt _ _ _ _ h3 i⟩) | cases h))))
  · first | (cases h; exact ⟨by (try simp); (try split) <;> (have hr2 := h2 (s.sp - 1); have hv0 := h3 0; omega), fun i => by first | exact h2 i | (show updFn s.stack s.sp s.pc i ≤ 4094; unfold updFn; split <;> first | omega | exact h2 i), fun i => by first | exact h3 i | exact setV_lt _ _ _ h3 i | exact setV_lt _ _ _ (fun k => setV_lt _ _ _ h3 k) i | exact foldl_setV_lt _ _ _ _ h3 i⟩) | cases h | (split at h <;> (first | (cases h; exact ⟨by (try simp); (try split) <;> (have hr2 := h2 (s.sp - 1); have hv0 := h3 0; omega), fun i => by first | exact h2 i | (show updFn s.stack s.sp s.pc i ≤ 4094; unfold updFn; split <;> first | omega | exact h2 i), fun i => by first | exact h3 i | exact setV_lt _ _ _ h3 i | exact setV_lt _ _ _ (fun k => setV_lt _ _ _ h3 k) i | exact foldl_setV_lt _ _ _ _ h3 i⟩) | cases h | (split at h <;> (first | (cases h; exact ⟨by (try simp); (try split) <;> (have hr2 := h2 (s.sp - 1); have hv0 := h3 0; omega), fun i => by first | exact h2 i | (show updFn s.stack s.sp s.pc i ≤ 4094; unfold updFn; split <;> first | omega | exact h2 i), fun i => by first | exact h3 i | exact setV_lt _ _ _ h3 i | exact setV_lt _ _ _ (fun k => setV_lt _ _ _ h3 k) i | exact foldl_setV_lt _ _ _ _ h3 i⟩) | cases h))))
  · first | (cases h; exact ⟨by (try simp); (try split) <;> (have hr2 := h2 (s.sp - 1); have hv0 := h3 0; omega), fun i => by first | exact h2 i | (show updFn s.stack s.sp s.pc i ≤ 4094; unfold updFn; split <;> first | omega | exact h2 i), fun i => by first | exact h3 i | exact setV_lt _ _ _ h3 i | exact setV_lt _ _ _ (fun k => setV_lt _ _ _ h3 k) i | exact foldl_setV_lt _ _ _ _ h3 i⟩) | cases h | (split at h <;> (first | (cases h; exact ⟨by (try simp); (try split) <;> (have hr2 := h2 (s.sp - 1); have hv0 := h3 0; omega), fun i => by first | exact h2 i | (show updFn s.stack s.sp s.pc i ≤ 4094; unfold updFn; split <;> first | omega | exact h2 i), fun i => by first | exact h3 i | exact setV_lt _ _ _ h3 i | exact setV_lt _ _ _ (fun k => setV_lt _ _ _ h3 k) i | exact foldl_setV_lt _ _ _ _ h3 i⟩) | cases h | (split at h <;> (first | (cases h; exact ⟨by (try simp); (try split) <;> (have hr2 := h2 (s.sp - 1); have hv0 := h3 0; omega), fun i => by first | exact h2 i | (show updFn s.stack s.sp s.pc i ≤ 4094; unfold updFn; split <;> first | omega | exact h2 i), fun i => by first | exact h3 i | exact setV_lt _ _ _ h3 i | exact setV_lt _ _ _ (fun k => setV_lt _ _ _ h3 k) i | exact foldl_setV_lt _ _ _ _ h3 i⟩) | cases h))))
  · first | (cases h; exact ⟨by (try simp); (try split) <;> (have hr2 := h2 (s.sp - 1); have hv0 := h3 0; omega), fun i => by first | exact h2 i | (show updFn s.stack s.sp s.pc i ≤ 4094; unfold updFn; split <;> first | omega | exact h2 i), fun i => by first | exact h3 i | exact setV_lt _ _ _ h3 i | exact setV_lt _ _ _ (fun k => setV_lt _ _ _ h3 k) i | exact foldl_setV_lt _ _ _ _ h3 i⟩) | cases h | (split at h <;> (first | (cases h; exact ⟨by (try simp); (try split) <;> (have hr2 := h2 (s.sp - 1); have hv0 := h3 0; omega), fun i => by first | exact h2 i | (show updFn s.stack s.sp s.pc i ≤ 4094; unfold updFn; split <;> first | omega | exact h2 i), fun i => by first | exact h3 i | exact setV_lt _ _ _ h3 i | exact setV_lt _ _ _ (fun k => setV_lt _ _ _ h3 k) i | exact foldl_setV_lt _ _ _ _ h3 i⟩) | cases h | (split at h <;> (first | (cases h; exact ⟨by (try simp); (try split) <;> (have hr2 := h2 (s.sp - 1); have hv0 := h3 0; omega), fun i => by first | exact h2 i | (show updFn s.stack s.sp s.pc i ≤ 4094; unfold updFn; split <;> first | omega | exact h2 i), fun i => by first | exact h3 i | exact setV_lt _ _ _ h3 i | exact setV_lt _ _ _ (fun k => setV_lt _ _ _ h3 k) i | exact foldl_setV_lt _ _ _ _ h3 i⟩) | cases h))))
  · first | (cases h; exact ⟨by (try simp); (try split) <;> (have hr2 := h2 (s.sp - 1); have hv0 := h3 0; omega), fun i => by first | exact h2 i | (show updFn s.stack s.sp s.pc i ≤ 4094; unfold updFn; split <;> first | omega | exact h2 i), fun i => by first | exact h3 i | exact setV_lt _ _ _ h3 i | exact setV_lt _ _ _ (fun k => setV_lt _ _ _ h3 k) i | exact foldl_setV_lt _ _ _ _ h3 i⟩) | cases h | (split at h <;> (first | (cases h; exact ⟨by (try simp); (try split) <;> (have hr2 := h2 (s.sp - 1); have hv0 := h3 0; omega), fun i => by first | exact h2 i | (show updFn s.stack s.sp s.pc i ≤ 4094; unfold updFn; split <;> first | omega | exact h2 i), fun i => by first | exact h3 i | exact setV_lt _ _ _ h3 i | exact setV_lt _ _ _ (fun k => setV_lt _ _ _ h3 k) i | exact foldl_setV_lt _ _ _ _ h3 i⟩) | cases h | (split at h <;> (first | (cases h; exact ⟨by (try simp); (try split) <;> (have hr2 := h2 (s.sp - 1); have hv0 := h3 0; omega), fun i => by first | exact h2 i | (show updFn s.stack s.sp s.pc i ≤ 4094; unfold updFn; split <;> first | omega | exact h2 i), fun i => by first | exact h3 i | exact setV_lt _ _ _ h3 i | exact setV_lt _ _ _ (fun k => setV_lt _ _ _ h3 k) i | exact foldl_setV_lt _ _ _ _ h3 i⟩) | cases h))))
  · unfold execOp8 at h
    first | (cases h; exact ⟨by (try simp); (try split) <;> (have hr2 := h2 (s.sp - 1); have hv0 := h3 0; omega), fun i => by first | exact h2 i | (show updFn s.stack s.sp s.pc i ≤ 4094; unfold updFn; split <;> first | omega | exact h2 i), fun i => by first | exact h3 i | exact setV_lt _ _ _ h3 i | exact setV_lt _ _ _ (fun k => setV_lt _ _ _ h3 k) i | exact foldl_setV_lt _ _ _ _ h3 i⟩) | cases h | (split at h <;> (first | (cases h; exact ⟨by (try simp); (try split) <;> (have hr2 := h2 (s.sp - 1); have hv0 := h3 0; omega), fun i => by first | exact h2 i | (show updFn s.stack s.sp s.pc i ≤ 4094; unfold updFn; split <;> first | omega | exact h2 i), fun i => by first | exact h3 i | exact setV_lt _ _ _ h3 i | exact setV_lt _ _ _ (fun k => setV_lt _ _ _ h3 k) i | exact foldl_setV_lt _ _ _ _ h3 i⟩) | cases h | (split at h <;> (first | (cases h; exact ⟨by (try simp); (try split) <;> (have hr2 := h2 (s.sp - 1); have hv0 := h3 0; omega), fun i => by first | exact h2 i | (show updFn s.stack s.sp s.pc i ≤ 4094; unfold updFn; split <;> first | omega | exact h2 i), fun i => by first | exact h3 i | exact setV_lt _ _ _ h3 i | exact setV_lt _ _ _ (fun k => setV_lt _ _ _ h3 k) i | exact foldl_setV_lt _ _ _ _ h3 i⟩) | cases h))))
  · first | (cases h; exact ⟨by (try simp); (try split) <;> (have hr2 := h2 (s.sp - 1); have hv0 := h3 0; omega), fun i => by first | exact h2 i | (show updFn s.stack s.sp s.pc i ≤ 4094; unfold updFn; split <;> first | omega | exact h2 i), fun i => by first | exact h3 i | exact setV_lt _ _ _ h3 i | exact setV_lt _ _ _ (fun k => setV_lt _ _ _ h3 k) i | exact foldl_setV_lt _ _ _ _ h3 i⟩) | cases h | (split at h <;> (first | (cases h; exact ⟨by (try simp); (try split) <;> (have hr2 := h2 (s.sp - 1); have hv0 := h3 0; omega), fun i => by first | exact h2 i | (show updFn s.stack s.sp s.pc i ≤ 4094; unfold updFn; split <;> first | omega | exact h2 i), fun i => by first | exact h3 i | exact setV_lt _ _ _ h3 i | exact setV_lt _ _ _ (fun k => setV_lt _ _ _ h3 k) i | exact foldl_setV_lt _ _ _ _ h3 i⟩) | cases h | (split at h <;> (first | (cases h; exact ⟨by (try simp); (try split) <;> (have hr2 := h2 (s.sp - 1); have hv0 := h3 0; omega), fun i => by first | exact h2 i | (show updFn s.stack s.sp s.pc i ≤ 4094; unfold updFn; split <;> first | omega | exact h2 i), fun i => by first | exact h3 i | exact setV_lt _ _ _ h3 i | exact setV_lt _ _ _ (fun k => setV_lt _ _ _ h3 k) i | exact foldl_setV_lt _ _ _ _ h3 i⟩) | cases h))))
  · first | (cases h; exact ⟨by (try simp); (try split) <;> (have hr2 := h2 (s.sp - 1); have hv0 := h3 0; omega), fun i => by first | exact h2 i | (show updFn s.stack s.sp s.pc i ≤ 4094; unfold updFn; split <;> first | omega | exact h2 i), fun i => by first | exact h3 i | exact setV_lt _ _ _ h3 i | exact setV_lt _ _ _ (fun k => setV_lt _ _ _ h3 k) i | exact foldl_setV_lt _ _ _ _ h3 i⟩) | cases h | (split at h <;> (first | (cases h; exact ⟨by (try simp); (try split) <;> (have hr2 := h2 (s.sp - 1); have hv0 := h3 0; omega), fun i => by first | exact h2 i | (show updFn s.stack s.sp s.pc i ≤ 4094; unfold updFn; split <;> first | omega | exact h2 i), fun i => by first | exact h3 i | exact setV_lt _ _ _ h3 i | exact setV_lt _ _ _ (fun k => setV_lt _ _ _ h3 k) i | exact foldl_setV_lt _ _ _ _ h3 i⟩) | cases h | (split at h <;> (first | (cases h; exact ⟨by (try simp); (try split) <;> (have hr2 := h2 (s.sp - 1); have hv0 := h3 0; omega), fun i => by first | exact h2 i | (show updFn s.stack s.sp s.pc i ≤ 4094; unfold updFn; split <;> first | omega | exact h2 i), fun i => by first | exact h3 i | exact setV_lt _ _ _ h3 i | exact setV_lt _ _ _ (fun k => setV_lt _ _ _ h3 k) i | exact foldl_setV_lt _ _ _ _ h3 i⟩) | cases h))))
  · first | (cases h; exact ⟨by (try simp); (try split) <;> (have hr2 := h2 (s.sp - 1); have hv0 := h3 0; omega), fun i => by first | exact h2 i | (show updFn s.stack s.sp s.pc i ≤ 4094; unfold updFn; split <;> first | omega | exact h2 i), fun i => by first | exact h3 i | exact setV_lt _ _ _ h3 i | exact setV_lt _ _ _ (fun k => setV_lt _ _ _ h3 k) i | exact foldl_setV_lt _ _ _ _ h3 i⟩) | cases h | (split at h <;> (first | (cases h; exact ⟨by (try simp); (try split) <;> (have hr2 := h2 (s.sp - 1); have hv0 := h3 0; omega), fun i => by first | exact h2 i | (show updFn s.stack s.sp s.pc i ≤ 4094; unfold updFn; split <;> first | omega | exact h2 i), fun i => by first | exact h3 i | exact setV_lt _ _ _ h3 i | exact setV_lt _ _ _ (fun k => setV_lt _ _ _ h3 k) i | exact foldl_setV_lt _ _ _ _ h3 i⟩) | cases h | (split at h <;> (first | (cases h; exact ⟨by (try simp); (try split) <;> (have hr2 := h2 (s.sp - 1); have hv0 := h3 0; omega), fun i => by first | exact h2 i | (show updFn s.stack s.sp s.pc i ≤ 4094; unfold updFn; split <;> first | omega | exact h2 i), fun i => by first | exact h3 i | exact setV_lt _ _ _ h3 i | exact setV_lt _ _ _ (fun k => setV_lt _ _ _ h3 k) i | exact foldl_setV_lt _ _ _ _ h3 i⟩) | cases h))))
  · first | (cases h; exact ⟨by (try simp); (try split) <;> (have hr2 := h2 (s.sp - 1); have hv0 := h3 0; omega), fun i => by first | exact h2 i | (show updFn s.stack s.sp s.pc i ≤ 4094; unfold updFn; split <;> first | omega | exact h2 i), fun i => by first | exact h3 i | exact setV_lt _ _ _ h3 i | exact setV_lt _ _ _ (fun k => setV_lt _ _ _ h3 k) i | exact foldl_setV_lt _ _ _ _ h3 i⟩) | cases h | (split at h <;> (first | (cases h; exact ⟨by (try simp); (try split) <;> (have hr2 := h2 (s.sp - 1); have hv0 := h3 0; omega), fun i => by first | exact h2 i | (show updFn s.stack s.sp s.pc i ≤ 4094; unfold updFn; split <;> first | omega | exact h2 i), fun i => by first | exact h3 i | exact setV_lt _ _ _ h3 i | exact setV_lt _ _ _ (fun k => setV_lt _ _ _ h3 k) i | exact foldl_setV_lt _ _ _ _ h3 i⟩) | cases h | (split at h <;> (first | (cases h; exact ⟨by (try simp); (try split) <;> (have hr2 := h2 (s.sp - 1); have hv0 := h3 0; omega), fun i => by first | exact h2 i | (show updFn s.stack s.sp s.pc i ≤ 4094; unfold updFn; split <;> first | omega | exact h2 i), fun i => by first | exact h3 i | exact setV_lt _ _ _ h3 i | exact setV_lt _ _ _ (fun k => setV_lt _ _ _ h3 k) i | exact foldl_setV_lt _ _ _ _ h3 i⟩) | cases h))))
  · first | (cases h; exact ⟨by (try simp); (try split) <;> (have hr2 := h2 (s.sp - 1); have hv0 := h3 0; omega), fun i => by first | exact h2 i | (show updFn s.stack s.sp s.pc i ≤ 4094; unfold updFn; split <;> first | omega | exact h2 i), fun i => by first | exact h3 i | exact setV_lt _ _ _ h3 i | exact setV_lt _ _ _ (fun k => setV_lt _ _ _ h3 k) i | exact foldl_setV_lt _ _ _ _ h3 i⟩) | cases h | (split at h <;> (first | (cases h; exact ⟨by (try simp); (try split) <;> (have hr2 := h2 (s.sp - 1); have hv0 := h3 0; omega), fun i => by first | exact h2 i | (show updFn s.stack s.sp s.pc i ≤ 4094; unfold updFn; split <;> first | omega | exact h2 i), fun i => by first | exact h3 i | exact setV_lt _ _ _ h3 i | exact setV_lt _ _ _ (fun k => setV_lt _ _ _ h3 k) i | exact foldl_setV_lt _ _ _ _ h3 i⟩) | cases h | (split at h <;> (first | (cases h; exact ⟨by (try simp); (try split) <;> (have hr2 := h2 (s.sp - 1); have hv0 := h3 0; omega), fun i => by first | exact h2 i | (show updFn s.stack s.sp s.pc i ≤ 4094; unfold updFn; split <;> first | omega | exact h2 i), fun i => by first | exact h3 i | exact setV_lt _ _ _ h3 i | exact setV_lt _ _ _ (fun k => setV_lt _ _ _ h3 k) i | exact foldl_setV_lt _ _ _ _ h3 i⟩) | cases h))))
  · unfold execOpE at h
    first | (cases h; exact ⟨by (try simp); (try split) <;> (have hr2 := h2 (s.sp - 1); have hv0 := h3 0; omega), fun i => by first | exact h2 i | (show updFn s.stack s.sp s.pc i ≤ 4094; unfold updFn; split <;> first | omega | exact h2 i), fun i => by first | exact h3 i | exact setV_lt _ _ _ h3 i | exact setV_lt _ _ _ (fun k => setV_lt _ _ _ h3 k) i | exact foldl_setV_lt _ _ _ _ h3 i⟩) | cases h | (split at h <;> (first | (cases h; exact ⟨by (try simp); (try split) <;> (have hr2 := h2 (s.sp - 1); have hv0 := h3 0; omega), fun i => by first | exact h2 i | (show updFn s.stack s.sp s.pc i ≤ 4094; unfold updFn; split <;> first | omega | exact h2 i), fun i => by first | exact h3 i | exact setV_lt _ _ _ h3 i | exact setV_lt _ _ _ (fun k => setV_lt _ _ _ h3 k) i | exact foldl_setV_lt _ _ _ _ h3 i⟩) | cases h | (split at h <;> (first | (cases h; exact ⟨by (try simp); (try split) <;> (have hr2 := h2 (s.sp - 1); have hv0 := h3 0; omega), fun i => by first | exact h2 i | (show updFn s.stack s.sp s.pc i ≤ 4094; unfold updFn; split <;> first | omega | exact h2 i), fun i => by first | exact h3 i | exact setV_lt _ _ _ h3 i | exact setV_lt _ _ _ (fun k => setV_lt _ _ _ h3 k) i | exact foldl_setV_lt _ _ _ _ h3 i⟩) | cases h))))
  · unfold execOpF at h
    first | (cases h; exact ⟨by (try simp); (try split) <;> (have hr2 := h2 (s.sp - 1); have hv0 := h3 0; omega), fun i => by first | exact h2 i | (show updFn s.stack s.sp s.pc i ≤ 4094; unfold updFn; split <;> first | omega | exact h2 i), fun i => by first | exact h3 i | exact setV_lt _ _ _ h3 i | exact setV_lt _ _ _ (fun k => setV_lt _ _ _ h3 k) i | exact foldl_setV_lt _ _ _ _ h3 i⟩) | cases h | (split at h <;> (first | (cases h; exact ⟨by (try simp); (try split) <;> (have hr2 := h2 (s.sp - 1); have hv0 := h3 0; omega), fun i => by first | exact h2 i | (show updFn s.stack s.sp s.pc i ≤ 4094; unfold updFn; split <;> first | omega | exact h2 i), fun i => by first | exact h3 i | exact setV_lt _ _ _ h3 i | exact setV_lt _ _ _ (fun k => setV_lt _ _ _ h3 k) i | exact foldl_setV_lt _ _ _ _ h3 i⟩) | cases h | (split at h <;> (first | (cases h; exact ⟨by (try simp); (try split) <;> (have hr2 := h2 (s.sp - 1); have hv0 := h3 0; omega), fun i => by first | exact h2 i | (show updFn s.stack s.sp s.pc i ≤ 4094; unfold updFn; split <;> first | omega | exact h2 i), fun i => by first | exact h3 i | exact setV_lt _ _ _ h3 i | exact setV_lt _ _ _ (fun k => setV_lt _ _ _ h3 k) i | exact foldl_setV_lt _ _ _ _ h3 i⟩) | cases h))))
  · first | (cases h; exact ⟨by (try simp); (try split) <;> (have hr2 := h2 (s.sp - 1); have hv0 := h3 0; omega), fun i => by first | exact h2 i | (show updFn s.stack s.sp s.pc i ≤ 4094; unfold updFn; split <;> first | omega | exact h2 i), fun i => by first | exact h3 i | exact setV_lt _ _ _ h3 i | exact setV_lt _ _ _ (fun k => setV_lt _ _ _ h3 k) i | exact foldl_setV_lt _ _ _ _ h3 i⟩) | cases h | (split at h <;> (first | (cases h; exact ⟨by (try simp); (try split) <;> (have hr2 := h2 (s.sp - 1); have hv0 := h3 0; omega), fun i => by first | exact h2 i | (show updFn s.stack s.sp s.pc i ≤ 4094; unfold updFn; split <;> first | omega | exact h2 i), fun i => by first | exact h3 i | exact setV_lt _ _ _ h3 i | exact setV_lt _ _ _ (fun k => setV_lt _ _ _ h3 k) i | exact foldl_setV_lt _ _ _ _ h3 i⟩) | cases h | (split at h <;> (first | (cases h; exact ⟨by (try simp); (try split) <;> (have hr2 := h2 (s.sp - 1); have hv0 := h3 0; omega), fun i => by first | exact h2 i | (show updFn s.stack s.sp s.pc i ≤ 4094; unfold updFn; split <;> first | omega | exact h2 i), fun i => by first | exact h3 i | exact setV_lt _ _ _ h3 i | exact setV_lt _ _ _ (fun k => setV_lt _ _ _ h3 k) i | exact foldl_setV_lt _ _ _ _ h3 i⟩) | cases h))))

lemma execInstr_ok_inv (rnd : Nat) (s : Chip8) (m : Chip8)
    (h : execInstr rnd s = CycleResult.ok m) (hinv : MachineInv s) : MachineInv m := by
  unfold execInstr at h
  split at h
  · cases h
  · exact execOp_ok_inv rnd s (fetchWord s) m h (by omega) hinv

/-- C5 (amended): the bounds that reachable states (reset, successful load,
successful cycles) actually maintain: PC at most 4350 (= 0xFFE + 2 + 0xFF
headroom from BNNN), every stack slot at most 4094, every register a byte.
Even-alignment and the [0x200, 4094] window are NOT maintained: jump targets
are accepted anywhere in [0, 4095] regardless of parity, and only the next
fetch (pc + 1 ≥ 4096) can fail. -/
theorem c5_reachable_bounds (s : Chip8) (h : Reachable s) : MachineInv s := by
  induction h with
  | load bytes hload =>
      rw [loadGame_fst]
      exact ⟨by simp [initChip8], fun i => by simp [initChip8], fun i => by simp [initChip8]⟩
  | step rnd s hs hnone ih =>
      unfold emulateCycle at hnone ⊢
      cases hE : execInstr rnd s with
      | ok m =>
          have hm := execInstr_ok_inv rnd s m hE ih
          exact ⟨hm.1, hm.2.1, hm.2.2⟩
      | waiting m =>
          rw [execInstr_waiting_eq rnd s m hE]
          exact ih
      | err m e =>
          rw [hE] at hnone
          simp at hnone

/-- Witness for C5 (amended): the freshly loaded machine is reachable and
satisfies all three bounds. -/
theorem c5_witness :
    Reachable (loadGame [0x00, 0xE0] initChip8).1 ∧
    (loadGame [0x00, 0xE0] initChip8).1.pc ≤ 4350 ∧
    (∀ i, (loadGame [0x00, 0xE0] initChip8).1.stack i ≤ 4094) ∧
    (∀ i, (loadGame [0x00, 0xE0] initChip8).1.V i < 256) := by
  have hr : Reachable (loadGame [0x00, 0xE0] initChip8).1 :=
    Reachable.load [0x00, 0xE0] (by decide)
  obtain ⟨a, b, c⟩ := c5_reachable_bounds _ hr
  exact ⟨hr, a, b, c⟩

/-- Counterexample to C5 as stated: the loaded program 0x1101 (JP 0x101) is
reachable, its cycle succeeds, and the resulting reachable state has
PC = 0x101 — odd relative to the program start and below 0x200 — with no
error raised. -/
theorem c5_counterexample :
    Reachable sC5cx ∧ (emulateCycle 0 sC5cx).2 = none ∧
    (emulateCycle 0 sC5cx).1.pc = 0x101 ∧ Reachable (emulateCycle 0 sC5cx).1 := by
  have h1 : Reachable sC5cx := Reachable.load [0x11, 0x01] (by decide)
  exact ⟨h1, by decide, by decide, Reachable.step 0 sC5cx h1 (by decide)⟩
